import Mathlib

set_option linter.unusedVariables false

/-!
Verification of the jimsaber lightsaber controller.

This file gives a shallow embedding of the Python sources under src/ and
proves (or refutes) the frozen claims about them.

Conventions of the embedding:
* Wall-clock instants and durations (Python floats from time.monotonic and
  WAV-file measurements) are modelled as rationals, so every comparison the
  code performs is exact and decidable.
* Python object mutation is modelled by explicit state passing: a method
  that mutates self and returns a value becomes a function returning the
  updated structure together with the value.
* Hardware reads (audio.playing, the debounced button value, the wake-alarm
  flag) are inputs supplied per tick.
* Python ints that encode enum-like constants (power states, events,
  motion modes) are kept as the same Nat codes as in the source.
-/

namespace Jimsaber

/-- Wall-clock time in seconds (time.monotonic), modelled exactly. -/
abbrev Time := ℚ

/-! ## Configuration constants (src/config.py)

Only the numeric constants the claims depend on are embedded; the sound
effect catalogs (config.SOUND_EFFECTS) measure WAV files at startup, so the
per-category playlists are passed to the functions that read them as
explicit list arguments of (filename, duration) pairs. -/

namespace config

/-- config.py line 227: HIT_THRESHOLD = 350 -/
def HIT_THRESHOLD : ℚ := 350

/-- config.py line 228: SWING_THRESHOLD = 125 -/
def SWING_THRESHOLD : ℚ := 125

/-- config.py line 243: DOUBLE_PRESS_TIMEOUT = 0.5 -/
def DOUBLE_PRESS_TIMEOUT : ℚ := 1/2

/-- config.py line 250: LIGHT_SLEEP_TIMEOUT = 60.0 -/
def LIGHT_SLEEP_TIMEOUT : ℚ := 60

/-- config.py line 251: DEEP_SLEEP_TIMEOUT = 30 -/
def DEEP_SLEEP_TIMEOUT : ℚ := 30

/-- config.py line 252: IDLE_TIMEOUT = 10.0 -/
def IDLE_TIMEOUT : ℚ := 10

/-- config.py line 253: AUTO_SHUTDOWN_TIMEOUT = 300.0 -/
def AUTO_SHUTDOWN_TIMEOUT : ℚ := 300

/-- config.py line 234: HIT_DURATION = 0.46 -/
def HIT_DURATION : ℚ := 46/100

/-- config.py line 235: SWING_DURATION = 0.31 -/
def SWING_DURATION : ℚ := 31/100

/-- Length of config.STRIP_ANIMATIONS (five animation descriptors). -/
def NUM_STRIP_ANIMATIONS : Nat := 5

end config

/-! ## LightsaberState (src/lightsaber_state.py), value level

The per-tick snapshot.  All fields listed in the class's slots are kept.
The two playlist dictionaries are association lists with Python dict
semantics (insertion order, update in place).  A second, reference-level
model of the snapshot used to settle the aliasing behaviour of copy() is
given further down (LightsaberStateRef / SnapshotStore). -/

structure LightsaberState where
  swing_hit_state : Nat
  previous : Nat
  trigger_time : Time
  last_state_log_time : Time
  events : List Nat
  current_event : Nat
  last_accel_read : Time
  cached_acceleration : Option (ℚ × ℚ × ℚ)
  activity_button_pressed : Bool
  long_press_triggered : Bool
  battery_voltage : ℚ
  last_battery_read : Time
  power_state : Option Nat
  power_state_name : String
  power_button_pressed : Bool
  sound_effect_indices : List (String × Nat)
  sound_effect_durations : List (String × ℚ)
deriving Repr, DecidableEq

namespace LightsaberState

/-- Main modes (lightsaber_state.py lines 18-21). -/
def OFF : Nat := 0

def IDLE : Nat := 1

def SWING : Nat := 2

def HIT : Nat := 3

/-- Events (lightsaber_state.py lines 24-45). -/
def NO_EVENT : Nat := 0

def POWER_ON_START : Nat := 1

def POWER_ON_PROGRESS : Nat := 2

def POWER_ON_STOP : Nat := 3

def POWER_OFF_START : Nat := 4

def POWER_OFF_PROGRESS : Nat := 5

def POWER_OFF_STOP : Nat := 6

def HIT_START : Nat := 7

def HIT_IN_PROGRESS : Nat := 8

def HIT_STOP : Nat := 9

def SWING_START : Nat := 10

def SWING_IN_PROGRESS : Nat := 11

def SWING_STOP : Nat := 12

def IDLE_START : Nat := 13

def IDLE_IN_PROGRESS : Nat := 14

def ANIMATION_CYCLE : Nat := 15

def BUTTON_LONG_PRESS : Nat := 16

def BUTTON_SHORT_PRESS : Nat := 17

def POWER_BUTTON_SHORT_PRESS : Nat := 18

def POWER_BUTTON_LONG_PRESS : Nat := 19

def ACTIVITY_BUTTON_SHORT_PRESS : Nat := 20

def ACTIVITY_BUTTON_LONG_PRESS : Nat := 21

/-- The freshly constructed snapshot (lightsaber_state.py __init__). -/
def init : LightsaberState where
  swing_hit_state := OFF
  previous := OFF
  trigger_time := 0
  last_state_log_time := 0
  events := []
  current_event := NO_EVENT
  last_accel_read := 0
  cached_acceleration := none
  activity_button_pressed := false
  long_press_triggered := false
  battery_voltage := 0
  last_battery_read := 0
  power_state := none
  power_state_name := "UNKNOWN"
  power_button_pressed := false
  sound_effect_indices := []
  sound_effect_durations := []

/-- add_event (lightsaber_state.py lines 118-121). -/
def add_event (s : LightsaberState) (e : Nat) : LightsaberState :=
  { s with events := s.events ++ [e], current_event := e }

/-- clear_events (lightsaber_state.py lines 123-126). -/
def clear_events (s : LightsaberState) : LightsaberState :=
  { s with events := [], current_event := NO_EVENT }

/-- has_event (lightsaber_state.py lines 128-130): membership test. -/
def has_event (s : LightsaberState) (e : Nat) : Bool :=
  s.events.contains e

/-- set_power_state (lightsaber_state.py lines 132-135). -/
def set_power_state (s : LightsaberState) (ps : Nat) (psName : String) :
    LightsaberState :=
  { s with power_state := some ps, power_state_name := psName }

end LightsaberState

/-! ### Association-list helpers with Python dict semantics -/

/-- Python d.get-like lookup in an insertion-ordered association list. -/
def dictGet {α : Type} (d : List (String × α)) (k : String) : Option α :=
  (d.find? (fun p => p.1 == k)).map (fun p => p.2)

/-- Python d[k] = v: update in place if the key exists, append otherwise. -/
def dictSet {α : Type} (d : List (String × α)) (k : String) (v : α) :
    List (String × α) :=
  if d.any (fun p => p.1 == k) then
    d.map (fun p => if p.1 == k then (k, v) else p)
  else
    d ++ [(k, v)]

namespace LightsaberState

/-- reset_sound_playlist for a specific type (lightsaber_state.py lines
137-141; the None branch that clears everything is not used by the claims'
call sites). -/
def reset_sound_playlist (s : LightsaberState) (sound_type : String) :
    LightsaberState :=
  { s with sound_effect_indices := dictSet s.sound_effect_indices sound_type 0 }

/-- advance_sound_playlist (lightsaber_state.py lines 147-178).  Every call
site in src passes sound_type explicitly, so the filename-sniffing branch
that infers the type from the first filename is never taken and is not
modelled.  The index is advanced before the entry is read. -/
def advance_sound_playlist (s : LightsaberState)
    (sound_effects_list : List (String × ℚ)) (sound_type : String) :
    LightsaberState × Option (String × ℚ) :=
  if sound_effects_list.isEmpty then (s, none)
  else
    let idx0 := (dictGet s.sound_effect_indices sound_type).getD 0
    let idx := (idx0 + 1) % sound_effects_list.length
    let entry := sound_effects_list.getD idx ("", 0)
    ({ s with
        sound_effect_indices := dictSet s.sound_effect_indices sound_type idx,
        sound_effect_durations :=
          dictSet s.sound_effect_durations sound_type entry.2 },
      some entry)

/-- get_current_sound_effect (lightsaber_state.py lines 180-213).  As for
advance_sound_playlist, sound_type is always passed by the callers in src.
A missing index is initialized to 0, an out-of-range index is clamped to 0,
and the final index and the entry's duration are written back. -/
def get_current_sound_effect (s : LightsaberState)
    (sound_effects_list : List (String × ℚ)) (sound_type : String) :
    LightsaberState × Option (String × ℚ) :=
  if sound_effects_list.isEmpty then (s, none)
  else
    let idx0 := (dictGet s.sound_effect_indices sound_type).getD 0
    let idx := if sound_effects_list.length ≤ idx0 then 0 else idx0
    let entry := sound_effects_list.getD idx ("", 0)
    ({ s with
        sound_effect_indices := dictSet s.sound_effect_indices sound_type idx,
        sound_effect_durations :=
          dictSet s.sound_effect_durations sound_type entry.2 },
      some entry)

/-- get_current_sound_duration (lightsaber_state.py lines 215-217). -/
def get_current_sound_duration (s : LightsaberState) (sound_type : String) :
    ℚ :=
  (dictGet s.sound_effect_durations sound_type).getD 0

end LightsaberState

/-! ## StateLock (src/state_machines/state_machine_base.py lines 5-41)

A Python StateLock carries a creation timestamp taken from time.monotonic
in its constructor; here the timestamp is an explicit field, supplied at the
creation site. -/

structure StateLock where
  name : String
  blocked : Bool
  timeout : Option ℚ
  valid_states : List Nat
  created_time : Time
deriving Repr, DecidableEq

namespace StateLock

/-- is_expired (state_machine_base.py lines 24-28):
time.monotonic() - created_time > timeout, false for timeout None. -/
def is_expired (l : StateLock) (now : Time) : Bool :=
  match l.timeout with
  | none => false
  | some t => decide (t < now - l.created_time)

/-- is_valid_for_state (state_machine_base.py lines 30-32):
not valid_states or state in valid_states. -/
def is_valid_for_state (l : StateLock) (state : Nat) : Bool :=
  l.valid_states.isEmpty || l.valid_states.contains state

/-- unlock (state_machine_base.py lines 34-37). -/
def unlock (l : StateLock) : StateLock :=
  { l with blocked := false }

/-- lock (state_machine_base.py lines 39-41). -/
def lock (l : StateLock) : StateLock :=
  { l with blocked := true }

end StateLock

/-! ## PowerStateMachine
(src/state_machines/power_state_machine.py, inheriting the fields and
methods of StateMachineBase from src/state_machines/state_machine_base.py)

The only state machine instantiated in this program is PowerStateMachine,
so the base-class methods are modelled directly on it; the dynamic dispatch
of can_transition_to inside StateMachineBase.transition_to therefore
resolves to PowerStateMachine.can_transition_to.  The three callback
dictionaries of StateMachineBase (transition_callbacks,
state_entry_callbacks, state_exit_callbacks) are never populated anywhere
in src (add_state_entry_callback has no caller), so the callback
invocations inside execute_transition are no-ops and the dictionaries are
omitted from the structure. -/

structure PowerStateMachine where
  current_state : Nat
  previous_state : Option Nat
  state_start_time : Time
  state_locks : List StateLock
  pending_transition : Option Nat
  led_animation_complete : Bool
  sound_animation_complete : Bool
  inactivity_timer : Time
deriving Repr, DecidableEq

namespace PowerStateMachine

/-- Power states (power_state_machine.py lines 12-19). -/
def BOOTING : Nat := 0

def SLEEPING : Nat := 1

def ACTIVATING : Nat := 2

def ACTIVE : Nat := 3

def IDLE : Nat := 4

def DEACTIVATING : Nat := 5

def DEEP_SLEEP : Nat := 6

def LIGHT_SLEEP : Nat := 7

/-- The machine as built by the constructor (power_state_machine.py
lines 21-50) at time t0: BOOTING, no locks, no pending transition,
animation flags false, inactivity timer initialized to now. -/
def init (t0 : Time) : PowerStateMachine where
  current_state := BOOTING
  previous_state := none
  state_start_time := t0
  state_locks := []
  pending_transition := none
  led_animation_complete := false
  sound_animation_complete := false
  inactivity_timer := t0

/-- can_transition_to (power_state_machine.py lines 56-72): the fixed
adjacency table. -/
def valid_transitions (current : Nat) : List Nat :=
  if current = BOOTING then [SLEEPING]
  else if current = SLEEPING then [ACTIVATING, LIGHT_SLEEP]
  else if current = LIGHT_SLEEP then [ACTIVATING, DEEP_SLEEP]
  else if current = ACTIVATING then [ACTIVE]
  else if current = ACTIVE then [IDLE, DEACTIVATING]
  else if current = IDLE then [ACTIVE, DEACTIVATING]
  else if current = DEACTIVATING then [SLEEPING]
  else if current = DEEP_SLEEP then [SLEEPING, ACTIVATING]
  else []

def can_transition_to (m : PowerStateMachine) (target : Nat) : Bool :=
  (valid_transitions m.current_state).contains target

/-- is_activation_complete (power_state_machine.py lines 74-77). -/
def is_activation_complete (m : PowerStateMachine) : Bool :=
  m.led_animation_complete && m.sound_animation_complete

/-- is_deactivation_complete (power_state_machine.py lines 79-82). -/
def is_deactivation_complete (m : PowerStateMachine) : Bool :=
  m.led_animation_complete && m.sound_animation_complete

/-- reset_animation_flags (power_state_machine.py lines 96-101). -/
def reset_animation_flags (m : PowerStateMachine) : PowerStateMachine :=
  { m with led_animation_complete := false, sound_animation_complete := false }

/-- update_inactivity_timer (power_state_machine.py lines 117-119). -/
def update_inactivity_timer (m : PowerStateMachine) (now : Time) :
    PowerStateMachine :=
  { m with inactivity_timer := now }

/-- cleanup_expired_locks (state_machine_base.py lines 169-174, Python name
with a leading underscore): remove every expired lock, keeping order. -/
def cleanup_expired_locks (m : PowerStateMachine) (now : Time) :
    PowerStateMachine :=
  { m with state_locks := m.state_locks.filter (fun l => !(l.is_expired now)) }

/-- are_locks_blocking_transition (state_machine_base.py lines 158-167,
Python name with a leading underscore): first purge expired locks, then
report whether any remaining lock has blocked == True.  Returns the machine
with the purged registry together with the answer.  Note that the check
does not consult is_valid_for_state. -/
def are_locks_blocking_transition (m : PowerStateMachine) (now : Time) :
    PowerStateMachine × Bool :=
  let m := cleanup_expired_locks m now
  (m, m.state_locks.any (fun l => l.blocked))

/-- execute_transition (state_machine_base.py lines 77-101, Python name
with a leading underscore).  The entry/exit/transition callback
dictionaries are empty in this program, so only the state fields change. -/
def execute_transition (m : PowerStateMachine) (new_state : Nat)
    (now : Time) : PowerStateMachine :=
  { m with
      previous_state := some m.current_state,
      current_state := new_state,
      state_start_time := now,
      pending_transition := none }

/-- transition_to (state_machine_base.py lines 59-75): reject an invalid
adjacency; store the request as the pending transition when a lock blocks;
otherwise execute it. -/
def transition_to (m : PowerStateMachine) (new_state : Nat) (now : Time) :
    PowerStateMachine × Bool :=
  if !(m.can_transition_to new_state) then (m, false)
  else
    let mb := are_locks_blocking_transition m now
    if mb.2 then ({ mb.1 with pending_transition := some new_state }, false)
    else (execute_transition mb.1 new_state now, true)

/-- add_state_lock (state_machine_base.py lines 120-138): reject a lock not
valid for the current state, otherwise append it to the registry. -/
def add_state_lock (m : PowerStateMachine) (l : StateLock) :
    PowerStateMachine × Bool :=
  if !(l.is_valid_for_state m.current_state) then (m, false)
  else ({ m with state_locks := m.state_locks ++ [l] }, true)

/-- Drop the first lock in the list with the given name. -/
def remove_first_named : List StateLock → String → List StateLock
  | [], _ => []
  | l :: ls, nm => if l.name == nm then ls else l :: remove_first_named ls nm

/-- remove_state_lock (state_machine_base.py lines 140-156): delete the
first lock with the given name; report whether one was found. -/
def remove_state_lock (m : PowerStateMachine) (lock_name : String) :
    PowerStateMachine × Bool :=
  if m.state_locks.any (fun l => l.name == lock_name) then
    ({ m with state_locks := remove_first_named m.state_locks lock_name },
      true)
  else (m, false)

/-- check_pending_transition (state_machine_base.py lines 176-185).  Its
docstring says it should be called from process_tick methods, but no code
in src ever calls it. -/
def check_pending_transition (m : PowerStateMachine) (now : Time) :
    PowerStateMachine × Bool :=
  match m.pending_transition with
  | none => (m, false)
  | some t =>
    let mb := are_locks_blocking_transition m now
    if mb.2 then (mb.1, false)
    else (execute_transition mb.1 t now, true)

/-- Mutation of a lock object shared between a coordinator and the
registry: unlock() called through the coordinator's reference also changes
the registry's view of the same object.  The coordinators use unique lock
names and hold at most one object per name, so updating the registry entry
by name models the shared mutation exactly. -/
def unlock_named (m : PowerStateMachine) (nm : String) : PowerStateMachine :=
  { m with
      state_locks :=
        m.state_locks.map (fun l => if l.name == nm then l.unlock else l) }

/-- check_inactivity_timeout (power_state_machine.py lines 103-108). -/
def check_inactivity_timeout (m : PowerStateMachine) (now : Time) : Bool :=
  m.current_state == SLEEPING
    && decide (config.DEEP_SLEEP_TIMEOUT < now - m.inactivity_timer)

/-- check_light_sleep_timeout (power_state_machine.py lines 110-115). -/
def check_light_sleep_timeout (m : PowerStateMachine) (now : Time) : Bool :=
  m.current_state == SLEEPING
    && decide (config.LIGHT_SLEEP_TIMEOUT < now - m.inactivity_timer)

/-- handle_power_button_press (power_state_machine.py lines 199-212):
SLEEPING / LIGHT_SLEEP request ACTIVATING, ACTIVE / IDLE request
DEACTIVATING, DEEP_SLEEP requests ACTIVATING; every other state ignores the
press.  Each taken branch first resets the animation flags. -/
def handle_power_button_press (m : PowerStateMachine) (now : Time) :
    PowerStateMachine :=
  if m.current_state == SLEEPING || m.current_state == LIGHT_SLEEP then
    ((reset_animation_flags m).transition_to ACTIVATING now).1
  else if m.current_state == ACTIVE || m.current_state == IDLE then
    ((reset_animation_flags m).transition_to DEACTIVATING now).1
  else if m.current_state == DEEP_SLEEP then
    ((reset_animation_flags m).transition_to ACTIVATING now).1
  else m

/-- handle_motion_detected (power_state_machine.py lines 214-221). -/
def handle_motion_detected (m : PowerStateMachine) (now : Time) :
    PowerStateMachine :=
  if m.current_state == IDLE then (m.transition_to ACTIVE now).1
  else if m.current_state == SLEEPING || m.current_state == LIGHT_SLEEP then
    update_inactivity_timer m now
  else m

/-- handle_no_motion_timeout (power_state_machine.py lines 223-227). -/
def handle_no_motion_timeout (m : PowerStateMachine) (now : Time) :
    PowerStateMachine :=
  if m.current_state == ACTIVE then (m.transition_to IDLE now).1 else m

/-- handle_idle_auto_shutdown_timeout (power_state_machine.py
lines 229-234). -/
def handle_idle_auto_shutdown_timeout (m : PowerStateMachine) (now : Time) :
    PowerStateMachine :=
  if m.current_state == IDLE then
    ((reset_animation_flags m).transition_to DEACTIVATING now).1
  else m

/-- update (power_state_machine.py lines 236-269).  was_woken_by_timer
reads the hardware wake alarm, supplied here as the input wokenByTimer.
The first four checks return immediately after transitioning; the last two
(activation / deactivation completion) fall through sequentially. -/
def update (m : PowerStateMachine) (now : Time) (wokenByTimer : Bool) :
    PowerStateMachine :=
  if m.current_state == BOOTING then (m.transition_to SLEEPING now).1
  else if m.check_light_sleep_timeout now then
    (m.transition_to LIGHT_SLEEP now).1
  else if m.current_state == LIGHT_SLEEP && wokenByTimer then
    (m.transition_to DEEP_SLEEP now).1
  else if m.current_state == LIGHT_SLEEP
      && decide (config.DEEP_SLEEP_TIMEOUT < now - m.inactivity_timer) then
    (m.transition_to DEEP_SLEEP now).1
  else
    let m :=
      if m.current_state == ACTIVATING && m.is_activation_complete then
        (m.transition_to ACTIVE now).1
      else m
    if m.current_state == DEACTIVATING && m.is_deactivation_complete then
      (m.transition_to SLEEPING now).1
    else m

/-- process_tick (power_state_machine.py lines 284-332).

After update and the two event checks, line 298 evaluates
new_state.current, but LightsaberState declares __slots__ without a
"current" (or "ACTIVE") attribute, so the access raises AttributeError on
every call; the mutations already made to the machine persist, and the
remaining statements (timeout handling, power_enabled, set_power_state,
logging) are never reached.  The result carries the machine and snapshot as
they are at the raise point, plus the pending Python exception.

Note the event tested on line 290 is BUTTON_SHORT_PRESS (= 17), not the
POWER_BUTTON_SHORT_PRESS (= 18) event that sensor_manager appends. -/
def process_tick (m : PowerStateMachine) (old_state new_state : LightsaberState)
    (now : Time) (wokenByTimer : Bool) :
    PowerStateMachine × LightsaberState × Option String :=
  let m := m.update now wokenByTimer
  let m :=
    if new_state.has_event LightsaberState.BUTTON_SHORT_PRESS then
      m.handle_power_button_press now
    else m
  let m :=
    if new_state.has_event LightsaberState.SWING_START
        || new_state.has_event LightsaberState.HIT_START then
      m.handle_motion_detected now
    else m
  (m, new_state, some ("AttributeError: current"))

end PowerStateMachine

/-! ### String constants used by the coordinators -/

/-- Lock name used by SoundManager for activation (sound_manager.py 208). -/
def activation_sound_name : String := "activation_sound"

/-- Lock name used by SoundManager for deactivation (sound_manager.py 263). -/
def deactivation_sound_name : String := "deactivation_sound"

/-- Lock name used by SaberLEDManager for activation
(saber_led_manager.py 168). -/
def activation_saber_name : String := "activation_saber_animation"

/-- Lock name used by SaberLEDManager for deactivation
(saber_led_manager.py 216). -/
def deactivation_saber_name : String := "deactivation_saber_animation"

/-- Sound category keys. -/
def activating_type : String := "activating"

def deactivating_type : String := "deactivating"

def hit_type : String := "hit"

def swing_type : String := "swing"

/-! ## SensorManager (src/sensor_manager.py)

Only the double-press bookkeeping lives on the manager; the debounced
button value and the accelerometer triple are hardware inputs.  The
accelerometer / battery / activity-button paths are not needed by the
claims beyond what the snapshot already carries. -/

structure SensorManager where
  last_power_button_press_time : Time
  power_button_press_count : Nat
  pending_single_press : Bool
deriving Repr, DecidableEq

namespace SensorManager

/-- Constructor state (sensor_manager.py lines 24-27). -/
def init : SensorManager where
  last_power_button_press_time := 0
  power_button_press_count := 0
  pending_single_press := false

/-- process_power_button (sensor_manager.py lines 109-158, Python name with
a leading underscore).  pressed is the debounced power_button.pressed value
for this tick.  A rising edge within DOUBLE_PRESS_TIMEOUT of a pending
first press emits the double-press action: ACTIVITY_BUTTON_SHORT_PRESS when
swing_hit_state is not OFF, otherwise a normal POWER_BUTTON_SHORT_PRESS.
A first press only records pending state; a pending single press whose
window has elapsed emits the deferred POWER_BUTTON_SHORT_PRESS. -/
def process_power_button (sm : SensorManager)
    (old_state new_state : LightsaberState) (now : Time) (pressed : Bool) :
    SensorManager × LightsaberState :=
  let new_state := { new_state with power_button_pressed := pressed }
  let smNew :=
    if !old_state.power_button_pressed && new_state.power_button_pressed then
      let time_since_last_press := now - sm.last_power_button_press_time
      if sm.pending_single_press
          && decide (time_since_last_press < config.DOUBLE_PRESS_TIMEOUT) then
        let new_state :=
          if new_state.swing_hit_state != LightsaberState.OFF then
            new_state.add_event LightsaberState.ACTIVITY_BUTTON_SHORT_PRESS
          else
            new_state.add_event LightsaberState.POWER_BUTTON_SHORT_PRESS
        ({ sm with
            pending_single_press := false,
            power_button_press_count := 0,
            last_power_button_press_time := now }, new_state)
      else
        ({ sm with
            pending_single_press := true,
            power_button_press_count := 1,
            last_power_button_press_time := now }, new_state)
    else (sm, new_state)
  let sm := smNew.1
  let new_state := smNew.2
  if sm.pending_single_press
      && decide (config.DOUBLE_PRESS_TIMEOUT
        ≤ now - sm.last_power_button_press_time) then
    ({ sm with pending_single_press := false, power_button_press_count := 0 },
      new_state.add_event LightsaberState.POWER_BUTTON_SHORT_PRESS)
  else (sm, new_state)

/-- process_motion_detection (sensor_manager.py lines 183-235, Python name
with a leading underscore).  Classifies the cached acceleration by squared
magnitude of the x and z axes against the two thresholds and appends the
transition events determined by the previous tick's mode. -/
def process_motion_detection (old_state new_state : LightsaberState) :
    LightsaberState :=
  if new_state.swing_hit_state != LightsaberState.OFF then
    match new_state.cached_acceleration with
    | none => new_state
    | some (x, _y, z) =>
      let acceleration_magnitude := x * x + z * z
      if decide (config.HIT_THRESHOLD < acceleration_magnitude) then
        if old_state.swing_hit_state != LightsaberState.HIT then
          { new_state.add_event LightsaberState.HIT_START with
              swing_hit_state := LightsaberState.HIT }
        else
          { new_state.add_event LightsaberState.HIT_IN_PROGRESS with
              swing_hit_state := LightsaberState.HIT }
      else if decide (config.SWING_THRESHOLD < acceleration_magnitude) then
        if old_state.swing_hit_state == LightsaberState.HIT then
          { (new_state.add_event LightsaberState.HIT_STOP).add_event
              LightsaberState.SWING_START with
              swing_hit_state := LightsaberState.SWING }
        else if old_state.swing_hit_state == LightsaberState.IDLE then
          { new_state.add_event LightsaberState.SWING_START with
              swing_hit_state := LightsaberState.SWING }
        else if old_state.swing_hit_state == LightsaberState.SWING then
          { new_state.add_event LightsaberState.SWING_IN_PROGRESS with
              swing_hit_state := LightsaberState.SWING }
        else new_state
      else
        if old_state.swing_hit_state == LightsaberState.HIT then
          { (new_state.add_event LightsaberState.HIT_STOP).add_event
              LightsaberState.IDLE_START with
              swing_hit_state := LightsaberState.IDLE }
        else if old_state.swing_hit_state == LightsaberState.SWING then
          { (new_state.add_event LightsaberState.SWING_STOP).add_event
              LightsaberState.IDLE_START with
              swing_hit_state := LightsaberState.IDLE }
        else if old_state.swing_hit_state == LightsaberState.IDLE then
          { new_state.add_event LightsaberState.IDLE_IN_PROGRESS with
              swing_hit_state := LightsaberState.IDLE }
        else new_state
  else new_state

/-- Tick harness for the power-button logic: runs process_power_button over
a schedule of (time, pressed) inputs the way main_loop does, starting each
tick from a fresh snapshot whose events are cleared and whose
power_button_pressed carries over from the previous tick (code.py line 143
copies; sensor_manager reads old_state.power_button_pressed).  swing is the
constant swing_hit_state during the run.  Returns the final manager state
and the list of event lists appended per tick. -/
def run_power_button_ticks (sm : SensorManager) (swing : Nat)
    (prev_pressed : Bool) :
    List (Time × Bool) → SensorManager × List (List Nat)
  | [] => (sm, [])
  | (t, pressed) :: rest =>
    let old_state :=
      { LightsaberState.init with
          power_button_pressed := prev_pressed, swing_hit_state := swing }
    let fresh :=
      { LightsaberState.init with swing_hit_state := swing }
    let step := process_power_button sm old_state fresh t pressed
    let next :=
      run_power_button_ticks step.1 swing step.2.power_button_pressed rest
    (next.1, step.2.events :: next.2)

end SensorManager

/-! ## SoundManager (src/sound_manager.py)

audio_playing mirrors the audio hardware flag self.audio.playing: play
calls set it, stop clears it, and a clip ending on its own between ticks
clears it (the per-tick input clip_finished).  File opens are assumed to
succeed (a failed open is a transient I/O path outside the claims); the
open/closed flags for the idle file and the current effect file are kept.
The activation/deactivation locks are shared objects also registered in
the power state machine; a mutation through the manager's reference is
mirrored into the registry by name (unlock_named), which is exact because
each name is held by at most one object. -/

structure SoundManager where
  activation_lock : Option StateLock
  deactivation_lock : Option StateLock
  effect_sound : Option (String × Bool)
  idle_sound_open : Bool
  sound_start_time : Time
  current_effect_file_open : Bool
  audio_playing : Bool
deriving Repr, DecidableEq

namespace SoundManager

/-- Constructor state (sound_manager.py lines 14-30). -/
def init : SoundManager where
  activation_lock := none
  deactivation_lock := none
  effect_sound := none
  idle_sound_open := false
  sound_start_time := 0
  current_effect_file_open := false
  audio_playing := false

/-- is_playing (sound_manager.py lines 186-191). -/
def is_playing (mgr : SoundManager) : Bool := mgr.audio_playing

/-- stop_sound (sound_manager.py lines 65-71). -/
def stop_sound (mgr : SoundManager) : SoundManager :=
  { mgr with audio_playing := false }

/-- close_current_effect_file (sound_manager.py lines 80-89). -/
def close_current_effect_file (mgr : SoundManager) : SoundManager :=
  { mgr with current_effect_file_open := false }

/-- play_effect_from_playlist (sound_manager.py lines 100-130): close the
previous effect file, open and play the new clip, record name and start
time. -/
def play_effect_from_playlist (mgr : SoundManager) (effect_name : String)
    (now : Time) : SoundManager :=
  let mgr := mgr.close_current_effect_file
  { mgr with
      current_effect_file_open := true,
      audio_playing := true,
      effect_sound := some (effect_name, true),
      sound_start_time := now }

/-- ensure_idle_file_open (sound_manager.py lines 150-157). -/
def ensure_idle_file_open (mgr : SoundManager) : SoundManager :=
  { mgr with idle_sound_open := true }

/-- close_idle_file (sound_manager.py lines 159-168). -/
def close_idle_file (mgr : SoundManager) : SoundManager :=
  { mgr with idle_sound_open := false }

/-- play_idle_sound (sound_manager.py lines 132-148): open the idle file if
needed and play it looping. -/
def play_idle_sound (mgr : SoundManager) : SoundManager :=
  { mgr with idle_sound_open := true, audio_playing := true }

/-- handle_activation_state (sound_manager.py lines 193-244, Python name
with a leading underscore).  activation_effects stands for
config.SOUND_EFFECTS['activating']. -/
def handle_activation_state (mgr : SoundManager)
    (new_state : LightsaberState) (psm : PowerStateMachine) (now : Time)
    (activation_effects : List (String × ℚ)) :
    SoundManager × LightsaberState × PowerStateMachine :=
  let mgr := mgr.ensure_idle_file_open
  if activation_effects.isEmpty then (mgr, new_state, psm)
  else
    let created :=
      match mgr.activation_lock with
      | some _ => (mgr, psm)
      | none =>
        let activation_duration := (activation_effects.getD 0 ("", 0)).2
        let l : StateLock :=
          { name := activation_sound_name, blocked := true,
            timeout := some (activation_duration + 1/2),
            valid_states := [PowerStateMachine.ACTIVATING],
            created_time := now }
        ({ mgr with activation_lock := some l }, (psm.add_state_lock l).1)
    let mgr := created.1
    let psm := created.2
    match mgr.activation_lock with
    | none => (mgr, new_state, psm)
    | some l =>
      if l.blocked then
        let started :=
          if mgr.effect_sound.isNone && !mgr.is_playing then
            let new_state := new_state.reset_sound_playlist activating_type
            let got :=
              new_state.get_current_sound_effect activation_effects
                activating_type
            match got.2 with
            | some fd =>
              if fd.1 != "" then
                (mgr.play_effect_from_playlist fd.1 now, got.1)
              else (mgr, got.1)
            | none => (mgr, got.1)
          else (mgr, new_state)
        let mgr := started.1
        let new_state := started.2
        if mgr.effect_sound.isSome then
          let elapsed := now - mgr.sound_start_time
          let current_duration :=
            new_state.get_current_sound_duration activating_type
          if decide (current_duration ≤ elapsed) then
            let mgr :=
              { mgr with
                  effect_sound := none,
                  activation_lock := mgr.activation_lock.map StateLock.unlock }
            (mgr, new_state, psm.unlock_named activation_sound_name)
          else (mgr, new_state, psm)
        else (mgr, new_state, psm)
      else (mgr, new_state, psm)

/-- handle_deactivation_state (sound_manager.py lines 246-311, Python name
with a leading underscore).  Mirrors handle_activation_state for the
deactivating category and lock (and without the idle-file pre-open). -/
def handle_deactivation_state (mgr : SoundManager)
    (new_state : LightsaberState) (psm : PowerStateMachine) (now : Time)
    (deactivation_effects : List (String × ℚ)) :
    SoundManager × LightsaberState × PowerStateMachine :=
  if deactivation_effects.isEmpty then (mgr, new_state, psm)
  else
    let created :=
      match mgr.deactivation_lock with
      | some _ => (mgr, psm)
      | none =>
        let deactivation_duration := (deactivation_effects.getD 0 ("", 0)).2
        let l : StateLock :=
          { name := deactivation_sound_name, blocked := true,
            timeout := some (deactivation_duration + 1/2),
            valid_states := [PowerStateMachine.DEACTIVATING],
            created_time := now }
        ({ mgr with deactivation_lock := some l }, (psm.add_state_lock l).1)
    let mgr := created.1
    let psm := created.2
    match mgr.deactivation_lock with
    | none => (mgr, new_state, psm)
    | some l =>
      if l.blocked then
        let started :=
          if mgr.effect_sound.isNone && !mgr.is_playing then
            let new_state := new_state.reset_sound_playlist deactivating_type
            let got :=
              new_state.get_current_sound_effect deactivation_effects
                deactivating_type
            match got.2 with
            | some fd =>
              if fd.1 != "" then
                (mgr.play_effect_from_playlist fd.1 now, got.1)
              else (mgr, got.1)
            | none => (mgr, got.1)
          else (mgr, new_state)
        let mgr := started.1
        let new_state := started.2
        if mgr.effect_sound.isSome then
          let elapsed := now - mgr.sound_start_time
          let current_duration :=
            new_state.get_current_sound_duration deactivating_type
          if decide (current_duration ≤ elapsed) then
            let mgr :=
              { mgr with
                  effect_sound := none,
                  deactivation_lock :=
                    mgr.deactivation_lock.map StateLock.unlock }
            (mgr, new_state, psm.unlock_named deactivation_sound_name)
          else (mgr, new_state, psm)
        else (mgr, new_state, psm)
      else (mgr, new_state, psm)

/-- handle_hit_state (sound_manager.py lines 313-333, Python name with a
leading underscore).  A fresh hit (no current effect, or the current effect
is not a hit clip) resets the hit playlist to the beginning and plays the
current entry; a finished hit clip advances the playlist for the next hit
and clears the effect. -/
def handle_hit_state (mgr : SoundManager) (new_state : LightsaberState)
    (now : Time) (hit_effects : List (String × ℚ)) :
    SoundManager × LightsaberState :=
  if hit_effects.isEmpty then (mgr, new_state)
  else
    let isHitClip :=
      match mgr.effect_sound with
      | none => false
      | some fb => hit_effects.any (fun e => e.1 == fb.1)
    if mgr.effect_sound.isNone || !isHitClip then
      let new_state := new_state.reset_sound_playlist hit_type
      let got := new_state.get_current_sound_effect hit_effects hit_type
      match got.2 with
      | some fd =>
        if fd.1 != "" then (mgr.play_effect_from_playlist fd.1 now, got.1)
        else (mgr, got.1)
      | none => (mgr, got.1)
    else
      if !mgr.is_playing then
        let adv := new_state.advance_sound_playlist hit_effects hit_type
        ({ mgr with effect_sound := none }, adv.1)
      else (mgr, new_state)

/-- handle_swing_state (sound_manager.py lines 335-355, Python name with a
leading underscore).  Same shape as handle_hit_state for the swing
category. -/
def handle_swing_state (mgr : SoundManager) (new_state : LightsaberState)
    (now : Time) (swing_effects : List (String × ℚ)) :
    SoundManager × LightsaberState :=
  if swing_effects.isEmpty then (mgr, new_state)
  else
    let isSwingClip :=
      match mgr.effect_sound with
      | none => false
      | some fb => swing_effects.any (fun e => e.1 == fb.1)
    if mgr.effect_sound.isNone || !isSwingClip then
      let new_state := new_state.reset_sound_playlist swing_type
      let got := new_state.get_current_sound_effect swing_effects swing_type
      match got.2 with
      | some fd =>
        if fd.1 != "" then (mgr.play_effect_from_playlist fd.1 now, got.1)
        else (mgr, got.1)
      | none => (mgr, got.1)
    else
      if !mgr.is_playing then
        let adv := new_state.advance_sound_playlist swing_effects swing_type
        ({ mgr with effect_sound := none }, adv.1)
      else (mgr, new_state)

/-- The ACTIVE/IDLE body of process_tick (sound_manager.py lines 397-415):
hit/swing dispatch (note lines 399 and 401 compare the current effect name
against the literal first-clip strings of each category), the
effect-finished status update, and the idle-hum fallback. -/
def active_idle_block (mgr : SoundManager) (new_state : LightsaberState)
    (now : Time) (hit_effects swing_effects : List (String × ℚ)) :
    SoundManager × LightsaberState :=
  let motion :=
    if new_state.has_event LightsaberState.HIT_START
        || (match mgr.effect_sound with
            | some fb => fb.1 == hit_type
            | none => false) then
      mgr.handle_hit_state new_state now hit_effects
    else if new_state.has_event LightsaberState.SWING_START
        || (match mgr.effect_sound with
            | some fb => fb.1 == swing_type
            | none => false) then
      mgr.handle_swing_state new_state now swing_effects
    else (mgr, new_state)
  let mgr := motion.1
  let new_state := motion.2
  let mgr :=
    match mgr.effect_sound with
    | some fb =>
      if !mgr.is_playing then
        { mgr with effect_sound := some (fb.1, false) }
      else mgr
    | none => mgr
  let mgr :=
    if (match mgr.effect_sound with
        | none => true
        | some fb => !fb.2) then
      if !mgr.is_playing then mgr.play_idle_sound else mgr
    else mgr
  (mgr, new_state)

/-- process_tick (sound_manager.py lines 357-423).  clip_finished is true
when the clip that was playing ended on its own since the previous tick.
The four playlist arguments stand for the config.SOUND_EFFECTS
categories. -/
def process_tick (mgr : SoundManager) (old_state new_state : LightsaberState)
    (psm : PowerStateMachine) (now : Time) (clip_finished : Bool)
    (activation_effects deactivation_effects hit_effects swing_effects :
      List (String × ℚ)) :
    SoundManager × LightsaberState × PowerStateMachine :=
  let mgr :=
    if clip_finished then { mgr with audio_playing := false } else mgr
  if new_state.power_state == some PowerStateMachine.ACTIVATING then
    let mgr :=
      if old_state.power_state != some PowerStateMachine.ACTIVATING
          && mgr.is_playing then
        { mgr.stop_sound with effect_sound := none }
      else mgr
    mgr.handle_activation_state new_state psm now activation_effects
  else
    let cleanA :=
      if old_state.power_state == some PowerStateMachine.ACTIVATING
          && new_state.power_state != some PowerStateMachine.ACTIVATING
          && mgr.activation_lock.isSome then
        let psm := psm.unlock_named activation_sound_name
        let psm := (psm.remove_state_lock activation_sound_name).1
        ({ mgr with activation_lock := none }, psm)
      else (mgr, psm)
    let mgr := cleanA.1
    let psm := cleanA.2
    if new_state.power_state == some PowerStateMachine.DEACTIVATING then
      let mgr :=
        if old_state.power_state != some PowerStateMachine.DEACTIVATING
            && mgr.is_playing then
          { mgr.stop_sound with effect_sound := none }
        else mgr
      let mgr := mgr.close_idle_file
      mgr.handle_deactivation_state new_state psm now deactivation_effects
    else
      let cleanD :=
        if old_state.power_state == some PowerStateMachine.DEACTIVATING
            && new_state.power_state != some PowerStateMachine.DEACTIVATING
            && mgr.deactivation_lock.isSome then
          let psm := psm.unlock_named deactivation_sound_name
          let psm := (psm.remove_state_lock deactivation_sound_name).1
          ({ mgr with deactivation_lock := none }, psm)
        else (mgr, psm)
      let mgr := cleanD.1
      let psm := cleanD.2
      let activeStep :=
        if new_state.power_state == some PowerStateMachine.ACTIVE
            || new_state.power_state == some PowerStateMachine.IDLE then
          mgr.active_idle_block new_state now hit_effects swing_effects
        else (mgr, new_state)
      let mgr := activeStep.1
      let new_state := activeStep.2
      let mgr :=
        if mgr.is_playing
            && !(new_state.power_state == some PowerStateMachine.ACTIVATING
              || new_state.power_state == some PowerStateMachine.ACTIVE
              || new_state.power_state == some PowerStateMachine.IDLE
              || new_state.power_state == some PowerStateMachine.DEACTIVATING)
          then mgr.stop_sound
        else mgr
      (mgr, new_state, psm)

end SoundManager

/-! ## SaberLEDManager (src/saber_led_manager.py)

Animation objects are referred to by tag; the pixel-buffer writes
(strip.fill, the animate call) and the SaberActivate object's internal
clock are hardware/per-frame rendering outside these claims (the
SaberActivate draw itself is modelled separately below for C9), but the
duration pushed into the activation/deactivation animation is tracked.
The config has no swing entry in SABER_STATE_ANIMATIONS (it is commented
out), so swing_effect_animation is None; the swing_effect_exists flag
records that. -/

inductive AnimRef where
  | strip (i : Nat)
  | activate
  | deactivate
  | hitEffect
  | swingEffect
deriving Repr, DecidableEq

structure SaberLEDManager where
  current_animation : Option AnimRef
  animation_active : Bool
  animation_start_time : Time
  power_animation_active : Bool
  power_animation_start_time : Time
  saber_effect_active : Bool
  saber_effect : Option String
  saber_effect_start_time : Time
  current_animation_index : Nat
  activation_lock : Option StateLock
  deactivation_lock : Option StateLock
  activate_animation_duration : ℚ
  deactivate_animation_duration : ℚ
  swing_effect_exists : Bool
deriving Repr, DecidableEq

namespace SaberLEDManager

/-- Constructor state (saber_led_manager.py lines 12-48); the SaberActivate
descriptors are configured with duration 0.0, and no swing animation is
configured. -/
def init : SaberLEDManager where
  current_animation := none
  animation_active := false
  animation_start_time := 0
  power_animation_active := false
  power_animation_start_time := 0
  saber_effect_active := false
  saber_effect := none
  saber_effect_start_time := 0
  current_animation_index := 0
  activation_lock := none
  deactivation_lock := none
  activate_animation_duration := 0
  deactivate_animation_duration := 0
  swing_effect_exists := false

/-- get_current_animation (saber_led_manager.py lines 95-97). -/
def get_current_animation (mgr : SaberLEDManager) : AnimRef :=
  AnimRef.strip mgr.current_animation_index

/-- cycle_animation (saber_led_manager.py lines 99-118): advance the index
modulo the number of configured strip animations and persist it (the NVM
write is hardware). -/
def cycle_animation (mgr : SaberLEDManager) : SaberLEDManager × AnimRef :=
  let idx := (mgr.current_animation_index + 1) % config.NUM_STRIP_ANIMATIONS
  ({ mgr with current_animation_index := idx }, AnimRef.strip idx)

/-- handle_hit_state for LEDs (saber_led_manager.py lines 120-134, Python
name with a leading underscore). -/
def handle_hit_state (mgr : SaberLEDManager) (now : Time) : SaberLEDManager :=
  if !mgr.saber_effect_active then
    { mgr with
        current_animation := some AnimRef.hitEffect,
        saber_effect := some hit_type,
        saber_effect_active := true,
        saber_effect_start_time := now }
  else if mgr.saber_effect == some hit_type then
    if decide (config.HIT_DURATION ≤ now - mgr.saber_effect_start_time) then
      { mgr with
          saber_effect := none,
          saber_effect_active := false,
          current_animation := none }
    else mgr
  else mgr

/-- handle_swing_state for LEDs (saber_led_manager.py lines 136-151, Python
name with a leading underscore).  With no swing animation configured, the
start branch is dead and only the completion branch can run; note the
Python elif structure never checks completion when a swing animation does
exist and an effect is active. -/
def handle_swing_state (mgr : SaberLEDManager) (now : Time) :
    SaberLEDManager :=
  if mgr.swing_effect_exists then
    if !mgr.saber_effect_active then
      { mgr with
          current_animation := some AnimRef.swingEffect,
          saber_effect := some swing_type,
          saber_effect_active := true,
          saber_effect_start_time := now }
    else mgr
  else if mgr.saber_effect == some swing_type then
    if decide (config.SWING_DURATION ≤ now - mgr.saber_effect_start_time) then
      { mgr with
          saber_effect := none,
          saber_effect_active := false,
          current_animation := none }
    else mgr
  else mgr

/-- handle_activation_state for LEDs (saber_led_manager.py lines 153-199,
Python name with a leading underscore).  The duration comes from the
snapshot's activating category, falling back to the first configured
activation clip, then to 2.0 seconds. -/
def handle_activation_state (mgr : SaberLEDManager)
    (new_state : LightsaberState) (psm : PowerStateMachine) (now : Time)
    (activation_effects : List (String × ℚ)) :
    SaberLEDManager × PowerStateMachine :=
  let d0 := new_state.get_current_sound_duration activating_type
  let activation_duration :=
    if d0 ≤ 0 then
      if activation_effects.isEmpty then 2
      else (activation_effects.getD 0 ("", 0)).2
    else d0
  let created :=
    match mgr.activation_lock with
    | some _ => (mgr, psm)
    | none =>
      let l : StateLock :=
        { name := activation_saber_name, blocked := true,
          timeout := some (activation_duration + 2),
          valid_states := [PowerStateMachine.ACTIVATING],
          created_time := now }
      ({ mgr with activation_lock := some l }, (psm.add_state_lock l).1)
  let mgr := created.1
  let psm := created.2
  match mgr.activation_lock with
  | none => (mgr, psm)
  | some l =>
    if l.blocked then
      let mgr := { mgr with current_animation := some AnimRef.activate }
      if !mgr.power_animation_active then
        ({ mgr with
            activate_animation_duration := activation_duration,
            power_animation_active := true,
            power_animation_start_time := now }, psm)
      else
        if decide (activation_duration
            ≤ now - mgr.power_animation_start_time) then
          let mgr :=
            { mgr with
                power_animation_active := false,
                current_animation := none,
                activation_lock := mgr.activation_lock.map StateLock.unlock }
          (mgr, psm.unlock_named activation_saber_name)
        else (mgr, psm)
    else (mgr, psm)

/-- handle_deactivation_state for LEDs (saber_led_manager.py lines 201-242,
Python name with a leading underscore). -/
def handle_deactivation_state (mgr : SaberLEDManager)
    (new_state : LightsaberState) (psm : PowerStateMachine) (now : Time)
    (deactivation_effects : List (String × ℚ)) :
    SaberLEDManager × PowerStateMachine :=
  let d0 := new_state.get_current_sound_duration deactivating_type
  let deactivation_duration :=
    if d0 ≤ 0 then
      if deactivation_effects.isEmpty then 2
      else (deactivation_effects.getD 0 ("", 0)).2
    else d0
  let created :=
    match mgr.deactivation_lock with
    | some _ => (mgr, psm)
    | none =>
      let l : StateLock :=
        { name := deactivation_saber_name, blocked := true,
          timeout := some (deactivation_duration + 2),
          valid_states := [PowerStateMachine.DEACTIVATING],
          created_time := now }
      ({ mgr with deactivation_lock := some l }, (psm.add_state_lock l).1)
  let mgr := created.1
  let psm := created.2
  match mgr.deactivation_lock with
  | none => (mgr, psm)
  | some l =>
    if l.blocked then
      let mgr := { mgr with current_animation := some AnimRef.deactivate }
      if !mgr.power_animation_active then
        ({ mgr with
            deactivate_animation_duration := deactivation_duration,
            power_animation_active := true,
            power_animation_start_time := now }, psm)
      else
        if decide (deactivation_duration
            ≤ now - mgr.power_animation_start_time) then
          let mgr :=
            { mgr with
                power_animation_active := false,
                current_animation := none,
                deactivation_lock :=
                  mgr.deactivation_lock.map StateLock.unlock }
          (mgr, psm.unlock_named deactivation_saber_name)
        else (mgr, psm)
    else (mgr, psm)

/-- The ACTIVE body of process_tick (saber_led_manager.py lines 270-286):
hit/swing effect dispatch, idle-animation fallback, and the
activity-button animation cycling. -/
def active_block (mgr : SaberLEDManager) (new_state : LightsaberState)
    (now : Time) : SaberLEDManager :=
  let mgr :=
    if new_state.has_event LightsaberState.HIT_START
        || mgr.saber_effect == some hit_type then
      mgr.handle_hit_state now
    else if new_state.has_event LightsaberState.SWING_START
        || mgr.saber_effect == some swing_type then
      mgr.handle_swing_state now
    else mgr
  let mgr :=
    if mgr.current_animation.isNone then
      { mgr with current_animation := some mgr.get_current_animation }
    else mgr
  let mgr :=
    if new_state.has_event LightsaberState.ACTIVITY_BUTTON_SHORT_PRESS then
      let cyc := mgr.cycle_animation
      { cyc.1 with current_animation := some cyc.2 }
    else mgr
  if mgr.current_animation.isNone then
    { mgr with current_animation := some mgr.get_current_animation }
  else mgr

/-- process_tick (saber_led_manager.py lines 244-294).  The snapshot is not
mutated by this manager, so only the manager and the power state machine
are returned; the trailing animate() call renders pixels and is hardware. -/
def process_tick (mgr : SaberLEDManager)
    (old_state new_state : LightsaberState) (psm : PowerStateMachine)
    (now : Time)
    (activation_effects deactivation_effects : List (String × ℚ)) :
    SaberLEDManager × PowerStateMachine :=
  let stepA :=
    if new_state.power_state == some PowerStateMachine.ACTIVATING then
      mgr.handle_activation_state new_state psm now activation_effects
    else if old_state.power_state == some PowerStateMachine.ACTIVATING
        && new_state.power_state != some PowerStateMachine.ACTIVATING
        && mgr.activation_lock.isSome then
      let psm := psm.unlock_named activation_saber_name
      let psm := (psm.remove_state_lock activation_saber_name).1
      ({ mgr with activation_lock := none }, psm)
    else (mgr, psm)
  let mgr := stepA.1
  let psm := stepA.2
  let stepD :=
    if new_state.power_state == some PowerStateMachine.DEACTIVATING then
      mgr.handle_deactivation_state new_state psm now deactivation_effects
    else if old_state.power_state == some PowerStateMachine.DEACTIVATING
        && new_state.power_state != some PowerStateMachine.DEACTIVATING
        && mgr.deactivation_lock.isSome then
      let psm := psm.unlock_named deactivation_saber_name
      let psm := (psm.remove_state_lock deactivation_saber_name).1
      ({ mgr with deactivation_lock := none }, psm)
    else (mgr, psm)
  let mgr := stepD.1
  let psm := stepD.2
  let mgr :=
    if new_state.power_state == some PowerStateMachine.ACTIVE then
      mgr.active_block new_state now
    else mgr
  (mgr, psm)

end SaberLEDManager

/-! ## SaberActivate.draw (src/led_animations/saber_activate.py lines 56-111)

The wave animation's float arithmetic is modelled over the reals: elapsed
time and duration are real, math.pow(x, 0.5) is the real square root, and
Python's int(x + 0.5) on the nonnegative x arising here is the natural
floor of x + 1/2.  Pixel colors are an arbitrary type; the pixel buffer is
a function from index to color, updated only on the indices the loop
writes (the 0 <= i < num_pixels guard of line 104 included). -/

/-- fraction = min(elapsed_seconds / duration, 1.0) (line 72). -/
noncomputable def saber_fraction (elapsed_seconds duration : ℝ) : ℝ :=
  min (elapsed_seconds / duration) 1

/-- The nonlinear curve applied to the fraction (lines 76-83): forward
fraction**0.5, reverse 1 - (1 - fraction)**0.5. -/
noncomputable def saber_curve (reverse : Bool) (fraction : ℝ) : ℝ :=
  if reverse then 1 - Real.sqrt (1 - fraction) else Real.sqrt fraction

/-- threshold = int(num_pixels * fraction + 0.5) (line 86), the number of
LEDs to light; the argument is nonnegative at every call, where int()
truncation is the floor. -/
noncomputable def saber_threshold (num_pixels : ℕ) (g : ℝ) : ℕ :=
  ⌊(num_pixels : ℝ) * g + 1/2⌋₊

/-- The pixel writes of draw (lines 89-105) for a given threshold: forward
writes indices [0, threshold), reverse writes [num_pixels - threshold,
num_pixels); every other index keeps its previous color. -/
def saber_draw {α : Type} (reverse : Bool) (num_pixels : ℕ) (color : α)
    (threshold : ℕ) (prev : ℕ → α) : ℕ → α :=
  fun i =>
    if reverse then
      if num_pixels - threshold ≤ i ∧ i < num_pixels then color else prev i
    else
      if i < threshold ∧ i < num_pixels then color else prev i

/-! ## LightsaberState.copy at the reference level
(src/lightsaber_state.py lines 79-116)

The value-level model above cannot express the aliasing content of copy()
(that the copy's events list and the two playlist dicts are fresh objects,
so mutating them never touches the source snapshot).  Here the three
mutable containers live in a store of cells and the snapshot holds cell
indices; every fresh Python list/dict is one newly allocated cell.  The
scalar fields are exactly those of the value model. -/

structure SnapshotStore where
  event_lists : List (List Nat)
  index_dicts : List (List (String × Nat))
  duration_dicts : List (List (String × ℚ))
deriving Repr, DecidableEq

structure LightsaberStateRef where
  swing_hit_state : Nat
  previous : Nat
  trigger_time : Time
  last_state_log_time : Time
  events : Nat
  current_event : Nat
  last_accel_read : Time
  cached_acceleration : Option (ℚ × ℚ × ℚ)
  activity_button_pressed : Bool
  long_press_triggered : Bool
  battery_voltage : ℚ
  last_battery_read : Time
  power_state : Option Nat
  power_state_name : String
  power_button_pressed : Bool
  sound_effect_indices : Nat
  sound_effect_durations : Nat
deriving Repr, DecidableEq

namespace SnapshotStore

/-- Read the event list a snapshot's events field refers to. -/
def getEvents (st : SnapshotStore) (r : Nat) : List Nat :=
  st.event_lists.getD r []

/-- Read the playlist-index dict a snapshot refers to. -/
def getIndices (st : SnapshotStore) (r : Nat) : List (String × Nat) :=
  st.index_dicts.getD r []

/-- Read the playlist-duration dict a snapshot refers to. -/
def getDurations (st : SnapshotStore) (r : Nat) : List (String × ℚ) :=
  st.duration_dicts.getD r []

/-- Allocate a fresh event-list cell. -/
def allocEvents (st : SnapshotStore) (l : List Nat) : SnapshotStore × Nat :=
  ({ st with event_lists := st.event_lists ++ [l] }, st.event_lists.length)

/-- Allocate a fresh index-dict cell. -/
def allocIndices (st : SnapshotStore) (d : List (String × Nat)) :
    SnapshotStore × Nat :=
  ({ st with index_dicts := st.index_dicts ++ [d] }, st.index_dicts.length)

/-- Allocate a fresh duration-dict cell. -/
def allocDurations (st : SnapshotStore) (d : List (String × ℚ)) :
    SnapshotStore × Nat :=
  ({ st with duration_dicts := st.duration_dicts ++ [d] },
    st.duration_dicts.length)

/-- Overwrite an event-list cell in place. -/
def setEvents (st : SnapshotStore) (r : Nat) (l : List Nat) : SnapshotStore :=
  { st with event_lists := st.event_lists.set r l }

/-- Overwrite an index-dict cell in place. -/
def setIndices (st : SnapshotStore) (r : Nat) (d : List (String × Nat)) :
    SnapshotStore :=
  { st with index_dicts := st.index_dicts.set r d }

/-- Overwrite a duration-dict cell in place. -/
def setDurations (st : SnapshotStore) (r : Nat) (d : List (String × ℚ)) :
    SnapshotStore :=
  { st with duration_dicts := st.duration_dicts.set r d }

end SnapshotStore

namespace LightsaberStateRef

/-- copy (lightsaber_state.py lines 79-116) at the reference level.  Every
scalar field of the source is copied; the events cell of the copy is a
fresh empty list when clear_events is true (clear_events(), line 91) and a
fresh shallow copy of the source's events otherwise (self.events[:], line
93); the two playlist dicts are fresh shallow copies (lines 113-114).
current_event is reset to NO_EVENT with clear_events true and carried over
otherwise.  (The constructor's own throwaway containers, immediately
superseded by these assignments, are not separately allocated: they are
unreachable and unobservable.)  Note line 99 and line 110 both assign
activity_button_pressed, which is harmless. -/
def copy (st : SnapshotStore) (s : LightsaberStateRef) (clear_events : Bool) :
    SnapshotStore × LightsaberStateRef :=
  let ev :=
    if clear_events then st.allocEvents []
    else st.allocEvents (st.getEvents s.events)
  let idx := ev.1.allocIndices (SnapshotStore.getIndices ev.1 s.sound_effect_indices)
  let dur := idx.1.allocDurations (SnapshotStore.getDurations idx.1 s.sound_effect_durations)
  (dur.1,
    { swing_hit_state := s.swing_hit_state
      previous := s.previous
      trigger_time := s.trigger_time
      last_state_log_time := s.last_state_log_time
      events := ev.2
      current_event :=
        if clear_events then LightsaberState.NO_EVENT else s.current_event
      last_accel_read := s.last_accel_read
      cached_acceleration := s.cached_acceleration
      activity_button_pressed := s.activity_button_pressed
      long_press_triggered := s.long_press_triggered
      battery_voltage := s.battery_voltage
      last_battery_read := s.last_battery_read
      power_state := s.power_state
      power_state_name := s.power_state_name
      power_button_pressed := s.power_button_pressed
      sound_effect_indices := idx.2
      sound_effect_durations := dur.2 })

/-- add_event (lightsaber_state.py lines 118-121) at the reference level:
append to the shared events cell, set current_event. -/
def add_event (st : SnapshotStore) (s : LightsaberStateRef) (e : Nat) :
    SnapshotStore × LightsaberStateRef :=
  (st.setEvents s.events (st.getEvents s.events ++ [e]),
    { s with current_event := e })

/-- advance_sound_playlist (lightsaber_state.py lines 147-178) at the
reference level: same arithmetic as the value model, but the updates hit
the shared dict cells. -/
def advance_sound_playlist (st : SnapshotStore) (s : LightsaberStateRef)
    (sound_effects_list : List (String × ℚ)) (sound_type : String) :
    SnapshotStore × Option (String × ℚ) :=
  if sound_effects_list.isEmpty then (st, none)
  else
    let indices := st.getIndices s.sound_effect_indices
    let idx0 := (dictGet indices sound_type).getD 0
    let idx := (idx0 + 1) % sound_effects_list.length
    let entry := sound_effects_list.getD idx ("", 0)
    let st := st.setIndices s.sound_effect_indices
      (dictSet indices sound_type idx)
    let st := st.setDurations s.sound_effect_durations
      (dictSet (st.getDurations s.sound_effect_durations) sound_type entry.2)
    (st, some entry)

end LightsaberStateRef

/-! ## Claims -/

/-- C1.  The claim says the power state machine's process_tick consumes a
power-button short-press event appended by the sensor manager (requesting
ACTIVATING from a sleeping state, DEACTIVATING from ACTIVE/IDLE).  It does
not: sensor_manager appends POWER_BUTTON_SHORT_PRESS (= 18, lines 137 and
156 of sensor_manager.py), while process_tick line 290 tests
BUTTON_SHORT_PRESS (= 17), an event nothing in src ever emits — so the
press is ignored, here evaluated from SLEEPING.  handle_power_button_press
itself does behave as the claim describes when invoked, and a snapshot
carrying the tested constant 17 does transition, isolating the mismatch. -/
theorem C1_power_button_press_not_consumed :
    (let m : PowerStateMachine :=
      { PowerStateMachine.init 0 with
          current_state := PowerStateMachine.SLEEPING }
    let s_new :=
      LightsaberState.init.add_event LightsaberState.POWER_BUTTON_SHORT_PRESS
    let r := m.process_tick LightsaberState.init s_new 1 false
    r.1.current_state = PowerStateMachine.SLEEPING ∧
    r.1.pending_transition = none ∧
    (m.handle_power_button_press 1).current_state
      = PowerStateMachine.ACTIVATING ∧
    (m.process_tick LightsaberState.init
        (LightsaberState.init.add_event LightsaberState.BUTTON_SHORT_PRESS)
        1 false).1.current_state = PowerStateMachine.ACTIVATING) := by
  norm_num [PowerStateMachine.process_tick, PowerStateMachine.update,
    PowerStateMachine.check_light_sleep_timeout,
    PowerStateMachine.handle_power_button_press,
    PowerStateMachine.handle_motion_detected,
    PowerStateMachine.transition_to, PowerStateMachine.can_transition_to,
    PowerStateMachine.valid_transitions,
    PowerStateMachine.are_locks_blocking_transition,
    PowerStateMachine.cleanup_expired_locks,
    PowerStateMachine.execute_transition,
    PowerStateMachine.reset_animation_flags,
    PowerStateMachine.update_inactivity_timer,
    PowerStateMachine.init, PowerStateMachine.BOOTING,
    PowerStateMachine.SLEEPING, PowerStateMachine.ACTIVATING,
    PowerStateMachine.ACTIVE, PowerStateMachine.IDLE,
    PowerStateMachine.DEACTIVATING, PowerStateMachine.DEEP_SLEEP,
    PowerStateMachine.LIGHT_SLEEP, LightsaberState.has_event,
    LightsaberState.add_event, LightsaberState.init,
    LightsaberState.BUTTON_SHORT_PRESS,
    LightsaberState.POWER_BUTTON_SHORT_PRESS, LightsaberState.SWING_START,
    LightsaberState.HIT_START, LightsaberState.NO_EVENT,
    config.LIGHT_SLEEP_TIMEOUT, config.DEEP_SLEEP_TIMEOUT]

/-- C2.  The claim says a transition stored as pending because a lock
blocked is executed on the first subsequent power-state-machine tick where
is_blocking is false, with no fresh request.  The retry routine exists
(check_pending_transition, whose docstring says it should be called from
process_tick), but nothing in src calls it: on a tick where the blocking
lock has expired, process_tick leaves both the state and the pending
transition untouched, while check_pending_transition would have executed
it. -/
theorem C2_pending_transition_never_retried :
    (let l : StateLock :=
      { name := activation_sound_name, blocked := true, timeout := some 1,
        valid_states := [], created_time := 0 }
    let m0 : PowerStateMachine :=
      { PowerStateMachine.init 0 with
          current_state := PowerStateMachine.ACTIVE, state_locks := [l] }
    let m1 := (m0.transition_to PowerStateMachine.DEACTIVATING (1/2)).1
    let r := m1.process_tick LightsaberState.init LightsaberState.init 2 false
    m1.pending_transition = some PowerStateMachine.DEACTIVATING ∧
    m1.current_state = PowerStateMachine.ACTIVE ∧
    (m1.are_locks_blocking_transition 2).2 = false ∧
    r.1.current_state = PowerStateMachine.ACTIVE ∧
    r.1.pending_transition = some PowerStateMachine.DEACTIVATING ∧
    (m1.check_pending_transition 2).1.current_state
      = PowerStateMachine.DEACTIVATING) := by
  norm_num [PowerStateMachine.process_tick, PowerStateMachine.update,
    PowerStateMachine.check_light_sleep_timeout,
    PowerStateMachine.check_pending_transition,
    PowerStateMachine.transition_to, PowerStateMachine.can_transition_to,
    PowerStateMachine.valid_transitions,
    PowerStateMachine.are_locks_blocking_transition,
    PowerStateMachine.cleanup_expired_locks,
    PowerStateMachine.execute_transition, PowerStateMachine.init,
    PowerStateMachine.BOOTING, PowerStateMachine.SLEEPING,
    PowerStateMachine.ACTIVATING, PowerStateMachine.ACTIVE,
    PowerStateMachine.IDLE, PowerStateMachine.DEACTIVATING,
    PowerStateMachine.DEEP_SLEEP, PowerStateMachine.LIGHT_SLEEP,
    StateLock.is_expired, LightsaberState.has_event, LightsaberState.init,
    LightsaberState.BUTTON_SHORT_PRESS, LightsaberState.SWING_START,
    LightsaberState.HIT_START, config.LIGHT_SLEEP_TIMEOUT,
    config.DEEP_SLEEP_TIMEOUT]

/-- C3.  add_state_lock rejects a StateLock whose valid_states excludes the
machine's current state (valid_states = [ACTIVATING] while SLEEPING) and
leaves the machine unchanged; the same lock is accepted while ACTIVATING;
and while that lock is blocked (and unexpired), a requested
ACTIVATING → ACTIVE transition is stored as the pending transition instead
of being applied, leaving current_state at ACTIVATING. -/
theorem C3_lock_validity_gates_add_and_blocks (m1 m2 : PowerStateMachine)
    (l : StateLock) (now : Time)
    (hval : l.valid_states = [PowerStateMachine.ACTIVATING])
    (hblocked : l.blocked = true)
    (h1 : m1.current_state = PowerStateMachine.SLEEPING)
    (h2 : m2.current_state = PowerStateMachine.ACTIVATING)
    (hexp : l.is_expired now = false) :
    m1.add_state_lock l = (m1, false) ∧
    m2.add_state_lock l
      = ({ m2 with state_locks := m2.state_locks ++ [l] }, true) ∧
    (let m3 := (m2.add_state_lock l).1
     (m3.transition_to PowerStateMachine.ACTIVE now).2 = false ∧
     (m3.transition_to PowerStateMachine.ACTIVE now).1.current_state
       = PowerStateMachine.ACTIVATING ∧
     (m3.transition_to PowerStateMachine.ACTIVE now).1.pending_transition
       = some PowerStateMachine.ACTIVE) := by
  have hv1 : l.is_valid_for_state m1.current_state = false := by
    simp [StateLock.is_valid_for_state, hval, h1, PowerStateMachine.SLEEPING,
      PowerStateMachine.ACTIVATING]
  have hv2 : l.is_valid_for_state m2.current_state = true := by
    simp [StateLock.is_valid_for_state, hval, h2]
  have hadd2 : m2.add_state_lock l
      = ({ m2 with state_locks := m2.state_locks ++ [l] }, true) := by
    simp [PowerStateMachine.add_state_lock, hv2]
  refine ⟨by simp [PowerStateMachine.add_state_lock, hv1], hadd2, ?_⟩
  rw [hadd2]
  have hcan : PowerStateMachine.can_transition_to
      { m2 with state_locks := m2.state_locks ++ [l] }
      PowerStateMachine.ACTIVE = true := by
    simp [PowerStateMachine.can_transition_to,
      PowerStateMachine.valid_transitions, h2, PowerStateMachine.ACTIVATING,
      PowerStateMachine.BOOTING, PowerStateMachine.SLEEPING,
      PowerStateMachine.LIGHT_SLEEP, PowerStateMachine.ACTIVE]
  have hblk : (PowerStateMachine.are_locks_blocking_transition
      { m2 with state_locks := m2.state_locks ++ [l] } now).2 = true := by
    simp only [PowerStateMachine.are_locks_blocking_transition,
      PowerStateMachine.cleanup_expired_locks, List.filter_append,
      List.any_append]
    simp [List.filter_cons, hexp, hblocked]
  simp only [PowerStateMachine.transition_to, hcan, Bool.not_true,
    Bool.false_eq_true, if_false, hblk, if_true]
  simp [PowerStateMachine.are_locks_blocking_transition,
    PowerStateMachine.cleanup_expired_locks, h2]

/-- Witness for C3 at a concrete machine, lock and time. -/
theorem C3_witness :
    (let l : StateLock :=
      { name := activation_saber_name, blocked := true, timeout := some 2,
        valid_states := [PowerStateMachine.ACTIVATING], created_time := 0 }
    let m1 : PowerStateMachine :=
      { PowerStateMachine.init 0 with
          current_state := PowerStateMachine.SLEEPING }
    let m2 : PowerStateMachine :=
      { PowerStateMachine.init 0 with
          current_state := PowerStateMachine.ACTIVATING }
    m1.add_state_lock l = (m1, false) ∧
    m2.add_state_lock l
      = ({ m2 with state_locks := m2.state_locks ++ [l] }, true) ∧
    (let m3 := (m2.add_state_lock l).1
     (m3.transition_to PowerStateMachine.ACTIVE 1).2 = false ∧
     (m3.transition_to PowerStateMachine.ACTIVE 1).1.current_state
       = PowerStateMachine.ACTIVATING ∧
     (m3.transition_to PowerStateMachine.ACTIVE 1).1.pending_transition
       = some PowerStateMachine.ACTIVE)) :=
  C3_lock_validity_gates_add_and_blocks _ _ _ 1 rfl rfl rfl rfl
    (by norm_num [StateLock.is_expired])

/-- C4 counterexample.  The claim's first half says a lock whose
valid_states excludes the current power state never causes the blocking
check to report blocked.  False: are_locks_blocking_transition
(state_machine_base.py lines 158-167) never consults is_valid_for_state, so
a registry holding one blocked, unexpired lock valid only for ACTIVATING
reports blocked while current_state is ACTIVE. -/
theorem C4_counterexample :
    (let l : StateLock :=
      { name := activation_saber_name, blocked := true, timeout := none,
        valid_states := [PowerStateMachine.ACTIVATING], created_time := 0 }
    let m : PowerStateMachine :=
      { PowerStateMachine.init 0 with
          current_state := PowerStateMachine.ACTIVE, state_locks := [l] }
    l.is_valid_for_state m.current_state = false ∧
    (m.are_locks_blocking_transition 1).2 = true) := by
  decide

/-- C4 amended.  What holds: the blocking check first removes every expired
lock, so an expired lock is never consulted and never blocks; the check
then reports blocked precisely when some surviving lock has blocked = true,
regardless of its valid_states (validity gates only add_state_lock, which
rejects a lock invalid for the current state without changing the
machine). -/
theorem C4_blocking_purges_expired_but_ignores_validity
    (m : PowerStateMachine) (now : Time) :
    ((m.are_locks_blocking_transition now).1.state_locks
        = m.state_locks.filter (fun l => !(l.is_expired now))) ∧
    ((m.are_locks_blocking_transition now).2
        = (m.state_locks.filter (fun l => !(l.is_expired now))).any
            (fun l => l.blocked)) ∧
    (∀ l ∈ m.state_locks, l.is_expired now = true →
        l ∉ (m.are_locks_blocking_transition now).1.state_locks) ∧
    (∀ l : StateLock, l.is_valid_for_state m.current_state = false →
        m.add_state_lock l = (m, false)) := by
  refine ⟨rfl, rfl, ?_, ?_⟩
  · intro l _hl hexp hmem
    have := (List.mem_filter.mp hmem).2
    simp [hexp] at this
  · intro l hl
    simp [PowerStateMachine.add_state_lock, hl]

/-- Witness for the amended C4 at a concrete machine, lock and time. -/
theorem C4_amended_witness :
    (let lexp : StateLock :=
      { name := deactivation_sound_name, blocked := true, timeout := some 1,
        valid_states := [], created_time := 0 }
    let m : PowerStateMachine :=
      { PowerStateMachine.init 0 with
          current_state := PowerStateMachine.IDLE, state_locks := [lexp] }
    let linv : StateLock :=
      { name := deactivation_saber_name, blocked := false, timeout := none,
        valid_states := [PowerStateMachine.DEACTIVATING], created_time := 0 }
    lexp ∉ (m.are_locks_blocking_transition 5).1.state_locks ∧
    m.add_state_lock linv = (m, false)) := by
  refine ⟨?_, ?_⟩
  · exact (C4_blocking_purges_expired_but_ignores_validity _ 5).2.2.1 _
      (by simp) (by norm_num [StateLock.is_expired])
  · exact (C4_blocking_purges_expired_but_ignores_validity _ 5).2.2.2 _
      (by decide)

/-! ### Registry helper lemmas for the coordinator cleanup claim -/

theorem remove_first_named_eq_of_no_name (L : List StateLock) (n : String)
    (h : ∀ l ∈ L, l.name ≠ n) :
    PowerStateMachine.remove_first_named L n = L := by
  induction L with
  | nil => rfl
  | cons a L ih =>
    have ha : (a.name == n) = false := by
      simp [h a (List.mem_cons_self a L)]
    simp [PowerStateMachine.remove_first_named, ha]
    exact ih (fun l hl => h l (List.mem_cons_of_mem a hl))

theorem remove_state_lock_locks (m : PowerStateMachine) (n : String) :
    (m.remove_state_lock n).1.state_locks
      = PowerStateMachine.remove_first_named m.state_locks n := by
  unfold PowerStateMachine.remove_state_lock
  by_cases h : m.state_locks.any (fun l => l.name == n) = true
  · simp [h]
  · have hno : ∀ l ∈ m.state_locks, l.name ≠ n := by
      intro l hl hln
      exact h (List.any_eq_true.mpr ⟨l, hl, by simp [hln]⟩)
    simp [h, remove_first_named_eq_of_no_name m.state_locks n hno]

theorem mem_remove_first_named {L : List StateLock} {n : String}
    {l : StateLock} (h : l ∈ PowerStateMachine.remove_first_named L n) :
    l ∈ L := by
  induction L with
  | nil => simp [PowerStateMachine.remove_first_named] at h
  | cons a L ih =>
    by_cases ha : (a.name == n) = true
    · simp only [PowerStateMachine.remove_first_named, ha, if_true] at h
      exact List.mem_cons_of_mem a h
    · simp only [PowerStateMachine.remove_first_named, ha, if_false,
        Bool.false_eq_true] at h
      rcases List.mem_cons.mp h with rfl | h2
      · exact List.mem_cons_self _ _
      · exact List.mem_cons_of_mem a (ih h2)

theorem remove_first_named_no_name (L : List StateLock) (n : String)
    (h : (L.filter (fun l => l.name == n)).length ≤ 1) :
    ∀ l ∈ PowerStateMachine.remove_first_named L n, l.name ≠ n := by
  induction L with
  | nil => simp [PowerStateMachine.remove_first_named]
  | cons a L ih =>
    intro l hl
    by_cases ha : (a.name == n) = true
    · simp only [PowerStateMachine.remove_first_named, ha, if_true] at hl
      have hf : L.filter (fun l => l.name == n) = [] := by
        rw [List.filter_cons] at h
        simp only [ha, if_true, List.length_cons] at h
        exact List.length_eq_zero.mp (by omega)
      intro hln
      have hmem : l ∈ L.filter (fun x => x.name == n) :=
        List.mem_filter.mpr ⟨hl, by simp [hln]⟩
      simp [hf] at hmem
    · simp only [PowerStateMachine.remove_first_named, ha, if_false,
        Bool.false_eq_true] at hl
      rcases List.mem_cons.mp hl with rfl | h2
      · intro hln
        exact ha (by simp [hln])
      · refine ih ?_ l h2
        rw [List.filter_cons, if_neg ha] at h
        exact h

theorem filter_name_length_map (L : List StateLock) (f : StateLock → StateLock)
    (hf : ∀ l, (f l).name = l.name) (n : String) :
    ((L.map f).filter (fun l => l.name == n)).length
      = (L.filter (fun l => l.name == n)).length := by
  induction L with
  | nil => rfl
  | cons a L ih =>
    have hfa : ((f a).name == n) = (a.name == n) := by rw [hf]
    by_cases ha : (a.name == n) = true
    · rw [List.map_cons, List.filter_cons, List.filter_cons]
      rw [hfa]
      simp only [ha, if_true, List.length_cons, ih]
    · rw [List.map_cons, List.filter_cons, List.filter_cons]
      rw [hfa]
      simp only [ha, Bool.false_eq_true, if_false]
      · exact ih

/-- The lock-release sequence a coordinator runs when forced away from its
gated state (unlock through the shared reference, then deregistration by
name) leaves no lock of that name in the registry, provided the registry
held at most one lock of that name — which is how the coordinators use it:
each creates its uniquely named lock at most once while holding it. -/
theorem cleanup_leaves_no_named_lock (m : PowerStateMachine) (n : String)
    (h : (m.state_locks.filter (fun l => l.name == n)).length ≤ 1) :
    ∀ l ∈ ((m.unlock_named n).remove_state_lock n).1.state_locks,
      l.name ≠ n := by
  rw [remove_state_lock_locks]
  apply remove_first_named_no_name
  unfold PowerStateMachine.unlock_named
  simp only
  rw [filter_name_length_map]
  · exact h
  · intro l
    by_cases hl : (l.name == n) = true <;> simp [hl, StateLock.unlock]

theorem no_name_after_add (m : PowerStateMachine) (x : StateLock) (n : String)
    (h : ∀ l ∈ m.state_locks, l.name ≠ n) (hx : x.name ≠ n) :
    ∀ l ∈ (m.add_state_lock x).1.state_locks, l.name ≠ n := by
  unfold PowerStateMachine.add_state_lock
  by_cases hv : x.is_valid_for_state m.current_state = true
  · simp only [hv, Bool.not_true, Bool.false_eq_true, if_false]
    intro l hl
    rcases List.mem_append.mp hl with h1 | h1
    · exact h l h1
    · rcases List.mem_singleton.mp h1 with rfl
      exact hx
  · simp only [Bool.not_eq_true] at hv
    simp only [hv, Bool.not_false, if_true]
    exact h

theorem no_name_after_unlock_named (m : PowerStateMachine) (n2 n : String)
    (h : ∀ l ∈ m.state_locks, l.name ≠ n) :
    ∀ l ∈ (m.unlock_named n2).state_locks, l.name ≠ n := by
  unfold PowerStateMachine.unlock_named
  intro l hl
  rcases List.mem_map.mp hl with ⟨x, hx, rfl⟩
  by_cases hxn : (x.name == n2) = true <;>
    simp [hxn, StateLock.unlock, h x hx]

theorem no_name_after_remove (m : PowerStateMachine) (n2 n : String)
    (h : ∀ l ∈ m.state_locks, l.name ≠ n) :
    ∀ l ∈ (m.remove_state_lock n2).1.state_locks, l.name ≠ n := by
  rw [remove_state_lock_locks]
  intro l hl
  exact h l (mem_remove_first_named hl)

/-! ### Coordinator preservation lemmas: the handlers of the other gated
state, and the ACTIVE-branch blocks, never touch the cleaned-up lock -/

theorem act_saber_ne_deact_saber :
    activation_saber_name ≠ deactivation_saber_name := by decide

theorem act_sound_ne_deact_sound :
    activation_sound_name ≠ deactivation_sound_name := by decide

theorem led_hit_activation_lock (mgr : SaberLEDManager) (now : Time) :
    (mgr.handle_hit_state now).activation_lock = mgr.activation_lock := by
  simp only [SaberLEDManager.handle_hit_state]
  repeat' split
  all_goals simp_all

theorem led_hit_deactivation_lock (mgr : SaberLEDManager) (now : Time) :
    (mgr.handle_hit_state now).deactivation_lock = mgr.deactivation_lock := by
  simp only [SaberLEDManager.handle_hit_state]
  repeat' split
  all_goals simp_all

theorem led_swing_activation_lock (mgr : SaberLEDManager) (now : Time) :
    (mgr.handle_swing_state now).activation_lock = mgr.activation_lock := by
  simp only [SaberLEDManager.handle_swing_state]
  repeat' split
  all_goals simp_all

theorem led_swing_deactivation_lock (mgr : SaberLEDManager) (now : Time) :
    (mgr.handle_swing_state now).deactivation_lock
      = mgr.deactivation_lock := by
  simp only [SaberLEDManager.handle_swing_state]
  repeat' split
  all_goals simp_all

theorem led_active_block_activation_lock (mgr : SaberLEDManager)
    (new_state : LightsaberState) (now : Time) :
    (mgr.active_block new_state now).activation_lock
      = mgr.activation_lock := by
  simp only [SaberLEDManager.active_block, SaberLEDManager.cycle_animation]
  repeat' split
  all_goals simp_all [led_hit_activation_lock, led_swing_activation_lock]

theorem led_active_block_deactivation_lock (mgr : SaberLEDManager)
    (new_state : LightsaberState) (now : Time) :
    (mgr.active_block new_state now).deactivation_lock
      = mgr.deactivation_lock := by
  simp only [SaberLEDManager.active_block, SaberLEDManager.cycle_animation]
  repeat' split
  all_goals simp_all [led_hit_deactivation_lock, led_swing_deactivation_lock]

theorem sound_hit_activation_lock (mgr : SoundManager)
    (new_state : LightsaberState) (now : Time) (eff : List (String × ℚ)) :
    (mgr.handle_hit_state new_state now eff).1.activation_lock
      = mgr.activation_lock := by
  simp only [SoundManager.handle_hit_state,
    SoundManager.play_effect_from_playlist,
    SoundManager.close_current_effect_file]
  repeat' split
  all_goals simp_all

theorem sound_hit_deactivation_lock (mgr : SoundManager)
    (new_state : LightsaberState) (now : Time) (eff : List (String × ℚ)) :
    (mgr.handle_hit_state new_state now eff).1.deactivation_lock
      = mgr.deactivation_lock := by
  simp only [SoundManager.handle_hit_state,
    SoundManager.play_effect_from_playlist,
    SoundManager.close_current_effect_file]
  repeat' split
  all_goals simp_all

theorem sound_swing_activation_lock (mgr : SoundManager)
    (new_state : LightsaberState) (now : Time) (eff : List (String × ℚ)) :
    (mgr.handle_swing_state new_state now eff).1.activation_lock
      = mgr.activation_lock := by
  simp only [SoundManager.handle_swing_state,
    SoundManager.play_effect_from_playlist,
    SoundManager.close_current_effect_file]
  repeat' split
  all_goals simp_all

theorem sound_swing_deactivation_lock (mgr : SoundManager)
    (new_state : LightsaberState) (now : Time) (eff : List (String × ℚ)) :
    (mgr.handle_swing_state new_state now eff).1.deactivation_lock
      = mgr.deactivation_lock := by
  simp only [SoundManager.handle_swing_state,
    SoundManager.play_effect_from_playlist,
    SoundManager.close_current_effect_file]
  repeat' split
  all_goals simp_all

theorem sound_active_idle_block_activation_lock (mgr : SoundManager)
    (new_state : LightsaberState) (now : Time)
    (heff seff : List (String × ℚ)) :
    (mgr.active_idle_block new_state now heff seff).1.activation_lock
      = mgr.activation_lock := by
  simp only [SoundManager.active_idle_block, SoundManager.play_idle_sound]
  repeat' split
  all_goals
    simp_all [sound_hit_activation_lock, sound_swing_activation_lock]

theorem sound_active_idle_block_deactivation_lock (mgr : SoundManager)
    (new_state : LightsaberState) (now : Time)
    (heff seff : List (String × ℚ)) :
    (mgr.active_idle_block new_state now heff seff).1.deactivation_lock
      = mgr.deactivation_lock := by
  simp only [SoundManager.active_idle_block, SoundManager.play_idle_sound]
  repeat' split
  all_goals
    simp_all [sound_hit_deactivation_lock, sound_swing_deactivation_lock]

theorem led_handle_deactivation_activation_lock (mgr : SaberLEDManager)
    (new_state : LightsaberState) (psm : PowerStateMachine) (now : Time)
    (deff : List (String × ℚ)) :
    (mgr.handle_deactivation_state new_state psm now deff).1.activation_lock
      = mgr.activation_lock := by
  rcases hdl : mgr.deactivation_lock with _ | l <;>
    simp only [SaberLEDManager.handle_deactivation_state, hdl] <;>
    repeat' split
  all_goals simp_all

theorem led_handle_deactivation_no_act_name (mgr : SaberLEDManager)
    (new_state : LightsaberState) (psm : PowerStateMachine) (now : Time)
    (deff : List (String × ℚ))
    (h : ∀ l ∈ psm.state_locks, l.name ≠ activation_saber_name) :
    ∀ l ∈ (mgr.handle_deactivation_state new_state psm now deff).2.state_locks,
      l.name ≠ activation_saber_name := by
  rcases hdl : mgr.deactivation_lock with _ | l <;>
    simp only [SaberLEDManager.handle_deactivation_state, hdl] <;>
    repeat' split
  all_goals first
    | exact h
    | exact no_name_after_unlock_named _ _ _ h
    | (apply no_name_after_unlock_named
       apply no_name_after_add psm _ _ h
       exact Ne.symm act_saber_ne_deact_saber)
    | (apply no_name_after_add psm _ _ h
       exact Ne.symm act_saber_ne_deact_saber)

theorem sound_handle_deactivation_activation_lock (mgr : SoundManager)
    (new_state : LightsaberState) (psm : PowerStateMachine) (now : Time)
    (deff : List (String × ℚ)) :
    (mgr.handle_deactivation_state new_state psm now deff).1.activation_lock
      = mgr.activation_lock := by
  rcases hdl : mgr.deactivation_lock with _ | l <;>
    simp only [SoundManager.handle_deactivation_state,
      SoundManager.play_effect_from_playlist,
      SoundManager.close_current_effect_file, hdl] <;>
    repeat' split
  all_goals simp_all

theorem sound_handle_deactivation_no_act_name (mgr : SoundManager)
    (new_state : LightsaberState) (psm : PowerStateMachine) (now : Time)
    (deff : List (String × ℚ))
    (h : ∀ l ∈ psm.state_locks, l.name ≠ activation_sound_name) :
    ∀ l ∈
      (mgr.handle_deactivation_state new_state psm now deff).2.2.state_locks,
      l.name ≠ activation_sound_name := by
  rcases hdl : mgr.deactivation_lock with _ | l <;>
    simp only [SoundManager.handle_deactivation_state,
      SoundManager.play_effect_from_playlist,
      SoundManager.close_current_effect_file, hdl] <;>
    repeat' split
  all_goals first
    | exact h
    | exact no_name_after_unlock_named _ _ _ h
    | (apply no_name_after_unlock_named
       apply no_name_after_add psm _ _ h
       exact Ne.symm act_sound_ne_deact_sound)
    | (apply no_name_after_add psm _ _ h
       exact Ne.symm act_sound_ne_deact_sound)

/-- C5.  When a tick moves the power state away from ACTIVATING
(respectively DEACTIVATING) while the LED or audio coordinator still holds
its activation (deactivation) lock, that coordinator's process_tick
unconditionally releases the lock and removes it from the registry: the
manager's lock field becomes None and no lock of that name remains
registered.  The uniqueness hypothesis reflects how the coordinators use
the registry: each creates its uniquely named lock at most once while
holding it.  The deactivation conjuncts additionally assume the tick does
not land on ACTIVATING, which no real tick leaving DEACTIVATING does: the
final conjunct shows DEACTIVATING → ACTIVATING is not a legal transition. -/
theorem C5_forced_transition_releases_coordinator_locks
    (ledmgr : SaberLEDManager) (sndmgr : SoundManager)
    (psm : PowerStateMachine) (old_state new_state : LightsaberState)
    (now : Time) (aeff deff heff seff : List (String × ℚ))
    (clip_finished : Bool) :
    ((old_state.power_state = some PowerStateMachine.ACTIVATING →
      new_state.power_state ≠ some PowerStateMachine.ACTIVATING →
      ledmgr.activation_lock.isSome = true →
      (psm.state_locks.filter
        (fun l => l.name == activation_saber_name)).length ≤ 1 →
      (ledmgr.process_tick old_state new_state psm now aeff
          deff).1.activation_lock = none ∧
      ∀ l ∈ (ledmgr.process_tick old_state new_state psm now aeff
          deff).2.state_locks, l.name ≠ activation_saber_name) ∧
    (old_state.power_state = some PowerStateMachine.DEACTIVATING →
      new_state.power_state ≠ some PowerStateMachine.DEACTIVATING →
      new_state.power_state ≠ some PowerStateMachine.ACTIVATING →
      ledmgr.deactivation_lock.isSome = true →
      (psm.state_locks.filter
        (fun l => l.name == deactivation_saber_name)).length ≤ 1 →
      (ledmgr.process_tick old_state new_state psm now aeff
          deff).1.deactivation_lock = none ∧
      ∀ l ∈ (ledmgr.process_tick old_state new_state psm now aeff
          deff).2.state_locks, l.name ≠ deactivation_saber_name) ∧
    (old_state.power_state = some PowerStateMachine.ACTIVATING →
      new_state.power_state ≠ some PowerStateMachine.ACTIVATING →
      sndmgr.activation_lock.isSome = true →
      (psm.state_locks.filter
        (fun l => l.name == activation_sound_name)).length ≤ 1 →
      (sndmgr.process_tick old_state new_state psm now clip_finished aeff
          deff heff seff).1.activation_lock = none ∧
      ∀ l ∈ (sndmgr.process_tick old_state new_state psm now clip_finished
          aeff deff heff seff).2.2.state_locks,
        l.name ≠ activation_sound_name) ∧
    (old_state.power_state = some PowerStateMachine.DEACTIVATING →
      new_state.power_state ≠ some PowerStateMachine.DEACTIVATING →
      new_state.power_state ≠ some PowerStateMachine.ACTIVATING →
      sndmgr.deactivation_lock.isSome = true →
      (psm.state_locks.filter
        (fun l => l.name == deactivation_sound_name)).length ≤ 1 →
      (sndmgr.process_tick old_state new_state psm now clip_finished aeff
          deff heff seff).1.deactivation_lock = none ∧
      ∀ l ∈ (sndmgr.process_tick old_state new_state psm now clip_finished
          aeff deff heff seff).2.2.state_locks,
        l.name ≠ deactivation_sound_name) ∧
    (∀ m : PowerStateMachine,
      m.current_state = PowerStateMachine.DEACTIVATING →
      m.can_transition_to PowerStateMachine.ACTIVATING = false)) := by
  refine ⟨?_, ?_, ?_, ?_, ?_⟩
  · -- LED, forced away from ACTIVATING
    intro hOld hNew hLock hUniq
    have hc1 : (new_state.power_state
        == some PowerStateMachine.ACTIVATING) = false := by simp [hNew]
    have hc2 : (old_state.power_state
        == some PowerStateMachine.ACTIVATING) = true := by simp [hOld]
    have hde : (old_state.power_state
        == some PowerStateMachine.DEACTIVATING) = false := by
      simp [hOld, PowerStateMachine.ACTIVATING, PowerStateMachine.DEACTIVATING]
    have hA := cleanup_leaves_no_named_lock psm activation_saber_name hUniq
    constructor
    · simp only [SaberLEDManager.process_tick, hc1, hc2, hde, hLock, bne,
        Bool.not_false, Bool.true_and, Bool.and_true, Bool.and_self,
        Bool.false_and, Bool.false_eq_true, if_true, if_false]
      repeat' split
      all_goals
        simp_all [led_handle_deactivation_activation_lock,
          led_active_block_activation_lock]
    · intro l hl
      simp only [SaberLEDManager.process_tick, hc1, hc2, hde, hLock, bne,
        Bool.not_false, Bool.true_and, Bool.and_true, Bool.and_self,
        Bool.false_and, Bool.false_eq_true, if_true, if_false] at hl
      repeat' split at hl
      all_goals first
        | exact hA l hl
        | exact led_handle_deactivation_no_act_name _ _ _ _ _ hA l hl
  · -- LED, forced away from DEACTIVATING
    intro hOld hNew hNewA hLock hUniq
    have hc1 : (new_state.power_state
        == some PowerStateMachine.DEACTIVATING) = false := by simp [hNew]
    have hcA : (new_state.power_state
        == some PowerStateMachine.ACTIVATING) = false := by simp [hNewA]
    have hc2 : (old_state.power_state
        == some PowerStateMachine.DEACTIVATING) = true := by simp [hOld]
    have hoa : (old_state.power_state
        == some PowerStateMachine.ACTIVATING) = false := by
      simp [hOld, PowerStateMachine.ACTIVATING, PowerStateMachine.DEACTIVATING]
    have hD := cleanup_leaves_no_named_lock psm deactivation_saber_name hUniq
    constructor
    · simp only [SaberLEDManager.process_tick, hc1, hcA, hc2, hoa, hLock, bne,
        Bool.not_false, Bool.true_and, Bool.and_true, Bool.and_self,
        Bool.false_and, Bool.false_eq_true, if_true, if_false]
      repeat' split
      all_goals simp_all [led_active_block_deactivation_lock]
    · intro l hl
      simp only [SaberLEDManager.process_tick, hc1, hcA, hc2, hoa, hLock, bne,
        Bool.not_false, Bool.true_and, Bool.and_true, Bool.and_self,
        Bool.false_and, Bool.false_eq_true, if_true, if_false] at hl
      exact hD l hl
  · -- audio, forced away from ACTIVATING
    intro hOld hNew hLock hUniq
    have hc1 : (new_state.power_state
        == some PowerStateMachine.ACTIVATING) = false := by simp [hNew]
    have hc2 : (old_state.power_state
        == some PowerStateMachine.ACTIVATING) = true := by simp [hOld]
    have hde : (old_state.power_state
        == some PowerStateMachine.DEACTIVATING) = false := by
      simp [hOld, PowerStateMachine.ACTIVATING, PowerStateMachine.DEACTIVATING]
    have hA := cleanup_leaves_no_named_lock psm activation_sound_name hUniq
    have hm0 : (if clip_finished = true
        then { sndmgr with audio_playing := false }
        else sndmgr).activation_lock = sndmgr.activation_lock := by
      split <;> rfl
    constructor
    · simp only [SoundManager.process_tick, hc1, hc2, hde, hm0, hLock, bne,
        Bool.not_false, Bool.true_and, Bool.and_true, Bool.and_self,
        Bool.false_and, Bool.false_eq_true, if_true, if_false]
      repeat' split
      all_goals
        simp_all [sound_handle_deactivation_activation_lock,
          sound_active_idle_block_activation_lock, SoundManager.stop_sound,
          SoundManager.close_idle_file]
    · intro l hl
      simp only [SoundManager.process_tick, hc1, hc2, hde, hm0, hLock, bne,
        Bool.not_false, Bool.true_and, Bool.and_true, Bool.and_self,
        Bool.false_and, Bool.false_eq_true, if_true, if_false] at hl
      repeat' split at hl
      all_goals first
        | exact hA l hl
        | exact sound_handle_deactivation_no_act_name _ _ _ _ _ hA l hl
  · -- audio, forced away from DEACTIVATING
    intro hOld hNew hNewA hLock hUniq
    have hc1 : (new_state.power_state
        == some PowerStateMachine.DEACTIVATING) = false := by simp [hNew]
    have hcA : (new_state.power_state
        == some PowerStateMachine.ACTIVATING) = false := by simp [hNewA]
    have hc2 : (old_state.power_state
        == some PowerStateMachine.DEACTIVATING) = true := by simp [hOld]
    have hoa : (old_state.power_state
        == some PowerStateMachine.ACTIVATING) = false := by
      simp [hOld, PowerStateMachine.ACTIVATING, PowerStateMachine.DEACTIVATING]
    have hD := cleanup_leaves_no_named_lock psm deactivation_sound_name hUniq
    have hm0 : (if clip_finished = true
        then { sndmgr with audio_playing := false }
        else sndmgr).deactivation_lock = sndmgr.deactivation_lock := by
      split <;> rfl
    constructor
    · simp only [SoundManager.process_tick, hc1, hcA, hc2, hoa, hm0, hLock,
        bne, Bool.not_false, Bool.true_and, Bool.and_true, Bool.and_self,
        Bool.false_and, Bool.false_eq_true, if_true, if_false]
      repeat' split
      all_goals
        simp_all [sound_active_idle_block_deactivation_lock,
          SoundManager.stop_sound, SoundManager.close_idle_file]
    · intro l hl
      simp only [SoundManager.process_tick, hc1, hcA, hc2, hoa, hm0, hLock,
        bne, Bool.not_false, Bool.true_and, Bool.and_true, Bool.and_self,
        Bool.false_and, Bool.false_eq_true, if_true, if_false] at hl
      exact hD l hl
  · intro m hm
    simp [PowerStateMachine.can_transition_to,
      PowerStateMachine.valid_transitions, hm, PowerStateMachine.DEACTIVATING,
      PowerStateMachine.BOOTING, PowerStateMachine.SLEEPING,
      PowerStateMachine.LIGHT_SLEEP, PowerStateMachine.ACTIVATING,
      PowerStateMachine.ACTIVE, PowerStateMachine.IDLE,
      PowerStateMachine.DEEP_SLEEP]

/-- Witness for C5: a concrete tick ACTIVATING → ACTIVE with the LED lock
held, and a concrete tick DEACTIVATING → SLEEPING with the audio lock
held. -/
theorem C5_witness :
    ((let lockA : StateLock :=
        { name := activation_saber_name, blocked := true, timeout := none,
          valid_states := [PowerStateMachine.ACTIVATING], created_time := 0 }
      let ledmgr : SaberLEDManager :=
        { SaberLEDManager.init with activation_lock := some lockA }
      let psm : PowerStateMachine :=
        { PowerStateMachine.init 0 with
            current_state := PowerStateMachine.ACTIVE,
            state_locks := [lockA] }
      let sOld : LightsaberState :=
        { LightsaberState.init with
            power_state := some PowerStateMachine.ACTIVATING }
      let sNew : LightsaberState :=
        { LightsaberState.init with
            power_state := some PowerStateMachine.ACTIVE }
      (ledmgr.process_tick sOld sNew psm 1 [] []).1.activation_lock = none ∧
      ∀ l ∈ (ledmgr.process_tick sOld sNew psm 1 [] []).2.state_locks,
        l.name ≠ activation_saber_name) ∧
    (let lockD : StateLock :=
        { name := deactivation_sound_name, blocked := true, timeout := none,
          valid_states := [PowerStateMachine.DEACTIVATING], created_time := 0 }
      let sndmgr : SoundManager :=
        { SoundManager.init with deactivation_lock := some lockD }
      let psm : PowerStateMachine :=
        { PowerStateMachine.init 0 with
            current_state := PowerStateMachine.SLEEPING,
            state_locks := [lockD] }
      let sOld : LightsaberState :=
        { LightsaberState.init with
            power_state := some PowerStateMachine.DEACTIVATING }
      let sNew : LightsaberState :=
        { LightsaberState.init with
            power_state := some PowerStateMachine.SLEEPING }
      (sndmgr.process_tick sOld sNew psm 1 false [] [] []
          []).1.deactivation_lock = none ∧
      ∀ l ∈ (sndmgr.process_tick sOld sNew psm 1 false [] [] []
          []).2.2.state_locks, l.name ≠ deactivation_sound_name)) := by
  constructor
  · exact (C5_forced_transition_releases_coordinator_locks _ SoundManager.init
      _ _ _ 1 [] [] [] [] false).1 rfl (by decide) rfl (by decide)
  · exact (C5_forced_transition_releases_coordinator_locks SaberLEDManager.init
      _ _ _ _ 1 [] [] [] [] false).2.2.2.1 rfl (by decide) (by decide) rfl
      (by decide)

/-- C6.  The claim (and spec property 7) says that after N completed hit
events with k hit clips, the hit category's playlist index equals N mod k.
The code defeats its own round-robin: _handle_hit_state resets the playlist
to index 0 at the start of every fresh hit (sound_manager.py line 322) and
only advances on completion (line 331, commented "advance to next for next
hit"), so clip 0 plays on every hit and the stored index after every
completed hit is 1.  Here two hits, each started (HIT_START tick) and
completed (clip-finished tick) while ACTIVE, against the three configured
clips hit/hit2/hit3, leave the index at 1 where the claim requires
2 mod 3 = 2. -/
theorem C6_hit_playlist_reset_defeats_round_robin :
    (let heff : List (String × ℚ) := [("hit", 1), ("hit2", 1), ("hit3", 1)]
    let psm := PowerStateMachine.init 0
    let sA : LightsaberState :=
      { LightsaberState.init with
          power_state := some PowerStateMachine.ACTIVE }
    let s1 := sA.add_event LightsaberState.HIT_START
    let r1 := SoundManager.init.process_tick sA s1 psm 0 false [] [] heff []
    let s2 :=
      { r1.2.1 with events := [], current_event := LightsaberState.NO_EVENT }
    let r2 := r1.1.process_tick r1.2.1 s2 psm 1 true [] [] heff []
    let s3 := (r2.2.1).add_event LightsaberState.HIT_START
    let r3 := r2.1.process_tick r2.2.1 s3 psm 2 false [] [] heff []
    let s4 :=
      { r3.2.1 with events := [], current_event := LightsaberState.NO_EVENT }
    let r4 := r3.1.process_tick r3.2.1 s4 psm 3 true [] [] heff []
    dictGet r4.2.1.sound_effect_indices hit_type = some 1 ∧
    (2 % 3 : Nat) = 2 ∧ some 1 ≠ some (2 % 3 : Nat)) := by
  decide

/-- C7 counterexample.  The claim says every direct SWING→HIT transition
appends both the stop event of the old mode and the start event of the new
mode.  False: with the previous mode SWING and squared magnitude
20·20 + 0·0 = 400 above HIT_THRESHOLD = 350, the motion processor appends
only HIT_START — no SWING_STOP (sensor_manager.py lines 193-201 have no
stop-event branch). -/
theorem C7_counterexample :
    (let sOld : LightsaberState :=
      { LightsaberState.init with swing_hit_state := LightsaberState.SWING }
    let sNew : LightsaberState :=
      { sOld with cached_acceleration := some (20, 0, 0) }
    let r := SensorManager.process_motion_detection sOld sNew
    r.events = [LightsaberState.HIT_START] ∧
    LightsaberState.SWING_STOP ∉ r.events ∧
    r.swing_hit_state = LightsaberState.HIT) := by
  norm_num [SensorManager.process_motion_detection, LightsaberState.add_event,
    LightsaberState.init, LightsaberState.OFF, LightsaberState.SWING,
    LightsaberState.HIT, LightsaberState.IDLE, LightsaberState.HIT_START,
    LightsaberState.SWING_STOP, config.HIT_THRESHOLD, config.SWING_THRESHOLD]

/-- C7 amended.  What holds of _process_motion_detection when the motion
sub-mode is live (IDLE/SWING/HIT, new copied from old as at tick start) and
a cached acceleration is present: the derived mode follows the
two-threshold classification of the squared magnitude of the x and z axes
(HIT above 350, SWING above 125, IDLE otherwise); a direct HIT→SWING
transition appends both HIT_STOP and SWING_START in that order; but a
direct SWING→HIT transition appends only HIT_START — the SWING_STOP half of
the original claim fails (see the counterexample). -/
theorem C7_motion_classification_and_transition_events
    (sOld sNew : LightsaberState) (x y z : ℚ)
    (hacc : sNew.cached_acceleration = some (x, y, z))
    (hsw : sNew.swing_hit_state = sOld.swing_hit_state)
    (hmode : sOld.swing_hit_state = LightsaberState.IDLE ∨
      sOld.swing_hit_state = LightsaberState.SWING ∨
      sOld.swing_hit_state = LightsaberState.HIT) :
    (let mag := x * x + z * z
    let r := SensorManager.process_motion_detection sOld sNew
    r.swing_hit_state =
      (if config.HIT_THRESHOLD < mag then LightsaberState.HIT
       else if config.SWING_THRESHOLD < mag then LightsaberState.SWING
       else LightsaberState.IDLE) ∧
    (sOld.swing_hit_state = LightsaberState.HIT →
      config.SWING_THRESHOLD < mag → mag ≤ config.HIT_THRESHOLD →
      r.events = sNew.events
        ++ [LightsaberState.HIT_STOP, LightsaberState.SWING_START]) ∧
    (sOld.swing_hit_state = LightsaberState.SWING →
      config.HIT_THRESHOLD < mag →
      r.events = sNew.events ++ [LightsaberState.HIT_START])) := by
  refine ⟨?_, ?_, ?_⟩
  · rcases hmode with h | h | h <;>
      by_cases h1 : config.HIT_THRESHOLD < x * x + z * z <;>
      by_cases h2 : config.SWING_THRESHOLD < x * x + z * z <;>
      simp [SensorManager.process_motion_detection,
        LightsaberState.add_event, LightsaberState.OFF, LightsaberState.IDLE,
        LightsaberState.SWING, LightsaberState.HIT, hacc, hsw, h, h1, h2]
  · intro hH hlt hle
    have h1 : ¬(config.HIT_THRESHOLD < x * x + z * z) := not_lt.mpr hle
    simp [SensorManager.process_motion_detection,
      LightsaberState.add_event, LightsaberState.OFF, LightsaberState.IDLE,
      LightsaberState.SWING, LightsaberState.HIT, hacc, hsw, hH, h1, hlt]
  · intro hS h1
    simp [SensorManager.process_motion_detection,
      LightsaberState.add_event, LightsaberState.OFF, LightsaberState.IDLE,
      LightsaberState.SWING, LightsaberState.HIT, hacc, hsw, hS, h1]

/-- Witness for the amended C7 at a concrete snapshot: previous mode IDLE,
acceleration (0, 0, 0), classified IDLE. -/
theorem C7_witness :
    (SensorManager.process_motion_detection
      { LightsaberState.init with swing_hit_state := LightsaberState.IDLE }
      { LightsaberState.init with
          swing_hit_state := LightsaberState.IDLE
          cached_acceleration := some (0, 0, 0) }).swing_hit_state
      = LightsaberState.IDLE := by
  have h := (C7_motion_classification_and_transition_events
    { LightsaberState.init with swing_hit_state := LightsaberState.IDLE }
    { LightsaberState.init with
        swing_hit_state := LightsaberState.IDLE
        cached_acceleration := some (0, 0, 0) }
    0 0 0 rfl rfl (Or.inl rfl)).1
  rw [h]
  norm_num [config.HIT_THRESHOLD, config.SWING_THRESHOLD]

/-- C8 counterexample.  The claim says a pair of power-button presses at
t = 0 and t = 0.2 (DOUBLE_PRESS_TIMEOUT = 0.5) appends exactly one
double-press event and no single-press event.  False when the motion
sub-mode is OFF: the double-press branch (sensor_manager.py lines 130-137)
then deliberately appends a normal POWER_BUTTON_SHORT_PRESS — a
single-press event — instead of the double-press action. -/
theorem C8_counterexample :
    (SensorManager.run_power_button_ticks SensorManager.init
        LightsaberState.OFF false
        [(0, true), (1/10, false), (2/10, true)]).2
      = [[], [], [LightsaberState.POWER_BUTTON_SHORT_PRESS]] := by
  norm_num [SensorManager.run_power_button_ticks,
    SensorManager.process_power_button, SensorManager.init,
    LightsaberState.add_event, LightsaberState.init, LightsaberState.OFF,
    config.DOUBLE_PRESS_TIMEOUT]

/-- C8 amended.  With the motion sub-mode live (IDLE/SWING/HIT — the OFF
case instead re-labels the double press as a normal single press, see the
counterexample and design note §9): presses at t = 0 and t = 0.2 append
exactly one event across the ticks, the double-press action
(ACTIVITY_BUTTON_SHORT_PRESS) at the second press, and no
POWER_BUTTON_SHORT_PRESS.  And in every sub-mode (the deferred path never
reaches the sub-mode test), a single press at t = 0 with no second press
appends exactly one deferred POWER_BUTTON_SHORT_PRESS, on the first tick at
or after t = DOUBLE_PRESS_TIMEOUT = 0.5 and on no tick before or after. -/
theorem C8_double_press_and_deferred_single (swing : Nat) :
    ((swing = LightsaberState.IDLE ∨ swing = LightsaberState.SWING ∨
        swing = LightsaberState.HIT) →
      (SensorManager.run_power_button_ticks SensorManager.init swing false
          [(0, true), (1/10, false), (2/10, true)]).2
        = [[], [], [LightsaberState.ACTIVITY_BUTTON_SHORT_PRESS]]) ∧
    (SensorManager.run_power_button_ticks SensorManager.init swing false
        [(0, true), (1/10, false), (2/10, false), (3/10, false),
          (4/10, false), (5/10, false), (6/10, false), (7/10, false)]).2
      = [[], [], [], [], [],
          [LightsaberState.POWER_BUTTON_SHORT_PRESS], [], []] := by
  constructor
  · intro hmode
    rcases hmode with h | h | h <;> subst h <;>
      norm_num [SensorManager.run_power_button_ticks,
        SensorManager.process_power_button, SensorManager.init,
        LightsaberState.add_event, LightsaberState.init, LightsaberState.OFF,
        LightsaberState.IDLE, LightsaberState.SWING, LightsaberState.HIT,
        config.DOUBLE_PRESS_TIMEOUT]
  · norm_num [SensorManager.run_power_button_ticks,
      SensorManager.process_power_button, SensorManager.init,
      LightsaberState.add_event, LightsaberState.init, LightsaberState.OFF,
      config.DOUBLE_PRESS_TIMEOUT]

/-- Witness for the amended C8: the double-press half with the motion
sub-mode IDLE, and the deferred-single half with the sub-mode OFF. -/
theorem C8_witness :
    (SensorManager.run_power_button_ticks SensorManager.init
        LightsaberState.IDLE false
        [(0, true), (1/10, false), (2/10, true)]).2
      = [[], [], [LightsaberState.ACTIVITY_BUTTON_SHORT_PRESS]] ∧
    (SensorManager.run_power_button_ticks SensorManager.init
        LightsaberState.OFF false
        [(0, true), (1/10, false), (2/10, false), (3/10, false),
          (4/10, false), (5/10, false), (6/10, false), (7/10, false)]).2
      = [[], [], [], [], [],
          [LightsaberState.POWER_BUTTON_SHORT_PRESS], [], []] :=
  ⟨(C8_double_press_and_deferred_single LightsaberState.IDLE).1 (Or.inl rfl),
    (C8_double_press_and_deferred_single LightsaberState.OFF).2⟩

/-- C9.  SaberActivate.draw at raw fraction f = min(elapsed/duration, 1):
the curve value g is f^0.5 forward and 1-(1-f)^0.5 in reverse; the number
of lit pixels is round(num_pixels·g) = ⌊num_pixels·g + 1/2⌋ (Python's
int(x + 0.5) on the nonnegative x here), which never exceeds num_pixels;
forward lights exactly indices [0, threshold) and reverse exactly
[num_pixels - threshold, num_pixels), counted from the far end; every pixel
outside the lit range keeps its previous color — no full repaint. -/
theorem C9_wave_draw_lights_round_and_preserves (α : Type)
    (duration elapsed_seconds : ℝ) (num_pixels : ℕ) (color : α)
    (prev : ℕ → α) (reverse : Bool)
    (hd : 0 < duration) (he : 0 ≤ elapsed_seconds) :
    (let f := saber_fraction elapsed_seconds duration
    let g := saber_curve reverse f
    let tn := saber_threshold num_pixels g
    let px := saber_draw reverse num_pixels color tn prev
    (g = if reverse then 1 - (1 - f) ^ ((1:ℝ)/2) else f ^ ((1:ℝ)/2)) ∧
    tn = ⌊(num_pixels : ℝ) * g + 1/2⌋₊ ∧
    tn ≤ num_pixels ∧
    (reverse = false →
      (∀ i, i < tn → px i = color) ∧ (∀ i, tn ≤ i → px i = prev i)) ∧
    (reverse = true →
      (∀ i, num_pixels - tn ≤ i → i < num_pixels → px i = color) ∧
      (∀ i, i < num_pixels - tn → px i = prev i) ∧
      (∀ i, num_pixels ≤ i → px i = prev i))) := by
  have hf0 : 0 ≤ saber_fraction elapsed_seconds duration :=
    le_min (div_nonneg he hd.le) zero_le_one
  have hf1 : saber_fraction elapsed_seconds duration ≤ 1 := min_le_right _ _
  have hg0 : 0 ≤ saber_curve reverse (saber_fraction elapsed_seconds duration)
      := by
    rcases reverse with _ | _
    · simp only [saber_curve, Bool.false_eq_true, if_false]
      exact Real.sqrt_nonneg _
    · simp only [saber_curve, if_true]
      have hle : Real.sqrt (1 - saber_fraction elapsed_seconds duration)
          ≤ 1 := Real.sqrt_le_one.mpr (by linarith)
      linarith
  have hg1 : saber_curve reverse (saber_fraction elapsed_seconds duration)
      ≤ 1 := by
    rcases reverse with _ | _
    · simp only [saber_curve, Bool.false_eq_true, if_false]
      exact Real.sqrt_le_one.mpr hf1
    · simp only [saber_curve, if_true]
      have := Real.sqrt_nonneg (1 - saber_fraction elapsed_seconds duration)
      linarith
  have htn : saber_threshold num_pixels
      (saber_curve reverse (saber_fraction elapsed_seconds duration))
      ≤ num_pixels := by
    have hx0 : (0:ℝ) ≤ (num_pixels : ℝ)
        * saber_curve reverse (saber_fraction elapsed_seconds duration)
          + 1/2 := by positivity
    have hlt : (num_pixels : ℝ)
        * saber_curve reverse (saber_fraction elapsed_seconds duration)
          + 1/2 < ((num_pixels + 1 : ℕ) : ℝ) := by
      push_cast
      nlinarith [Nat.cast_nonneg (α := ℝ) num_pixels]
    have := (Nat.floor_lt hx0).mpr hlt
    exact Nat.lt_succ_iff.mp this
  refine ⟨?_, rfl, htn, ?_, ?_⟩
  · rcases reverse with _ | _ <;>
      simp [saber_curve, Real.sqrt_eq_rpow]
  · intro hrev
    subst hrev
    constructor
    · intro i hi
      simp [saber_draw, hi, lt_of_lt_of_le hi htn]
    · intro i hi
      simp [saber_draw, Nat.not_lt.mpr hi]
  · intro hrev
    subst hrev
    refine ⟨?_, ?_, ?_⟩
    · intro i h1 h2
      simp [saber_draw, h1, h2]
    · intro i hi
      simp [saber_draw, Nat.not_le.mpr hi]
    · intro i hi
      simp [saber_draw, Nat.not_lt.mpr hi]

/-- Witness for C9 at duration 1, elapsed 0, two pixels: the threshold is
⌊2·√0 + 1/2⌋ = 0 and pixel 1 keeps its previous color. -/
theorem C9_witness :
    saber_draw false 2 (1:ℕ)
      (saber_threshold 2 (saber_curve false (saber_fraction 0 1)))
      (fun _ => 0) 1 = 0 := by
  have h0 : saber_threshold 2 (saber_curve false (saber_fraction 0 1))
      = 0 := by
    have hf : saber_fraction (0:ℝ) 1 = 0 := by norm_num [saber_fraction]
    rw [saber_threshold, saber_curve]
    simp only [Bool.false_eq_true, if_false, hf, Real.sqrt_zero, mul_zero,
      zero_add]
    rw [Nat.floor_eq_zero]
    norm_num
  exact ((C9_wave_draw_lights_round_and_preserves ℕ 1 0 2 1 (fun _ => 0)
      false (by norm_num) le_rfl).2.2.2.1 rfl).2 1 (h0 ▸ Nat.zero_le 1)

/-! ### Store helper lemmas for the reference-level copy claim -/

theorem getD_list_set_ne {α : Type} (L : List α) (i j : Nat) (v d : α)
    (h : i ≠ j) : (L.set i v).getD j d = L.getD j d := by
  rw [List.getD_eq_getElem?_getD, List.getD_eq_getElem?_getD,
    List.getElem?_set_ne h]

theorem getD_append_self {α : Type} (L : List α) (x d : α) :
    (L ++ [x]).getD L.length d = x := by
  rw [List.getD_append_right _ _ _ _ le_rfl]
  simp

/-- C10.  copy(clear_events=True) yields a snapshot with an empty event
list and current_event = NO_EVENT, all persistent scalar fields equal to
the source's, playlist-dict contents equal to the source's, and three
freshly allocated containers (cell indices distinct from the source's), so
neither the copy itself nor appending an event to the copy nor advancing a
playlist on the copy changes what the source snapshot observes. -/
theorem C10_copy_resets_events_and_shares_nothing (st : SnapshotStore)
    (s : LightsaberStateRef)
    (hev : s.events < st.event_lists.length)
    (hidx : s.sound_effect_indices < st.index_dicts.length)
    (hdur : s.sound_effect_durations < st.duration_dicts.length) :
    (let r := LightsaberStateRef.copy st s true
    let st1 := r.1
    let c := r.2
    st1.getEvents c.events = [] ∧
    c.current_event = LightsaberState.NO_EVENT ∧
    c.swing_hit_state = s.swing_hit_state ∧
    c.previous = s.previous ∧
    c.trigger_time = s.trigger_time ∧
    c.last_state_log_time = s.last_state_log_time ∧
    c.last_accel_read = s.last_accel_read ∧
    c.cached_acceleration = s.cached_acceleration ∧
    c.activity_button_pressed = s.activity_button_pressed ∧
    c.long_press_triggered = s.long_press_triggered ∧
    c.battery_voltage = s.battery_voltage ∧
    c.last_battery_read = s.last_battery_read ∧
    c.power_state = s.power_state ∧
    c.power_state_name = s.power_state_name ∧
    c.power_button_pressed = s.power_button_pressed ∧
    st1.getIndices c.sound_effect_indices
      = st.getIndices s.sound_effect_indices ∧
    st1.getDurations c.sound_effect_durations
      = st.getDurations s.sound_effect_durations ∧
    c.events ≠ s.events ∧
    c.sound_effect_indices ≠ s.sound_effect_indices ∧
    c.sound_effect_durations ≠ s.sound_effect_durations ∧
    st1.getEvents s.events = st.getEvents s.events ∧
    st1.getIndices s.sound_effect_indices
      = st.getIndices s.sound_effect_indices ∧
    st1.getDurations s.sound_effect_durations
      = st.getDurations s.sound_effect_durations ∧
    (∀ e, (LightsaberStateRef.add_event st1 c e).1.getEvents s.events
      = st.getEvents s.events) ∧
    (∀ eff ty,
      (LightsaberStateRef.advance_sound_playlist st1 c eff ty).1.getIndices
        s.sound_effect_indices = st.getIndices s.sound_effect_indices ∧
      (LightsaberStateRef.advance_sound_playlist st1 c eff ty).1.getDurations
        s.sound_effect_durations
        = st.getDurations s.sound_effect_durations)) := by
  simp only [LightsaberStateRef.copy, SnapshotStore.allocEvents,
    SnapshotStore.allocIndices, SnapshotStore.allocDurations,
    SnapshotStore.getEvents, SnapshotStore.getIndices,
    SnapshotStore.getDurations, if_true]
  refine ⟨?_, trivial, trivial, trivial, trivial, trivial, trivial, trivial,
    trivial, trivial, trivial, trivial, trivial, trivial, trivial, ?_, ?_,
    ?_, ?_, ?_, ?_, ?_, ?_, ?_, ?_⟩
  · exact getD_append_self _ _ _
  · exact getD_append_self _ _ _
  · exact getD_append_self _ _ _
  · exact (Nat.ne_of_lt hev).symm
  · exact (Nat.ne_of_lt hidx).symm
  · exact (Nat.ne_of_lt hdur).symm
  · exact List.getD_append _ _ _ _ hev
  · exact List.getD_append _ _ _ _ hidx
  · exact List.getD_append _ _ _ _ hdur
  · intro e
    simp only [LightsaberStateRef.add_event, SnapshotStore.setEvents,
      SnapshotStore.getEvents]
    rw [getD_list_set_ne _ _ _ _ _ (Nat.ne_of_lt hev).symm]
    exact List.getD_append _ _ _ _ hev
  · intro eff ty
    by_cases hemp : eff.isEmpty = true
    · simp only [LightsaberStateRef.advance_sound_playlist, hemp, if_true,
        SnapshotStore.getIndices, SnapshotStore.getDurations]
      exact ⟨List.getD_append _ _ _ _ hidx, List.getD_append _ _ _ _ hdur⟩
    · simp only [LightsaberStateRef.advance_sound_playlist, hemp,
        Bool.false_eq_true, if_false, SnapshotStore.setIndices,
        SnapshotStore.setDurations, SnapshotStore.getIndices,
        SnapshotStore.getDurations]
      constructor
      · rw [getD_list_set_ne _ _ _ _ _ (Nat.ne_of_lt hidx).symm]
        exact List.getD_append _ _ _ _ hidx
      · rw [getD_list_set_ne _ _ _ _ _ (Nat.ne_of_lt hdur).symm]
        exact List.getD_append _ _ _ _ hdur

/-- Witness for C10 at a concrete one-cell-per-container store. -/
theorem C10_witness :
    (let st : SnapshotStore :=
      { event_lists := [[LightsaberState.HIT_START]],
        index_dicts := [[("hit", 2)]],
        duration_dicts := [[("hit", (3 : ℚ))]] }
    let s : LightsaberStateRef :=
      { swing_hit_state := LightsaberState.IDLE
        previous := LightsaberState.OFF
        trigger_time := 0
        last_state_log_time := 0
        events := 0
        current_event := LightsaberState.HIT_START
        last_accel_read := 0
        cached_acceleration := none
        activity_button_pressed := false
        long_press_triggered := false
        battery_voltage := 0
        last_battery_read := 0
        power_state := some PowerStateMachine.ACTIVE
        power_state_name := "ACTIVE"
        power_button_pressed := false
        sound_effect_indices := 0
        sound_effect_durations := 0 }
    let r := LightsaberStateRef.copy st s true
    r.1.getEvents r.2.events = [] ∧
    r.2.events ≠ s.events ∧
    ∀ e, (LightsaberStateRef.add_event r.1 r.2 e).1.getEvents s.events
      = st.getEvents s.events) := by
  refine ⟨?_, ?_, ?_⟩
  · exact (C10_copy_resets_events_and_shares_nothing _ _ (by decide)
      (by decide) (by decide)).1
  · exact (C10_copy_resets_events_and_shares_nothing _ _ (by decide)
      (by decide) (by decide)).2.2.2.2.2.2.2.2.2.2.2.2.2.2.2.2.2.1
  · exact (C10_copy_resets_events_and_shares_nothing _ _ (by decide)
      (by decide) (by decide)).2.2.2.2.2.2.2.2.2.2.2.2.2.2.2.2.2.2.2.2.2.2.2.1

end Jimsaber
